import Mathlib

/-!
The microcode decoder of vrcpu.

A shallow embedding of `src/Arduino/Microcode/Microcode.cpp`.  Control words are
`uint32_t` values built only with bitwise OR (and one left shift), so they are
embedded as `Nat` with `|||` and `<<<`.  The description out-parameter
`std::string& desc` is threaded through every function: a function takes the
caller's string and returns it, assigned or not, next to the control word.
-/

namespace Microcode

/-- Modelled from the spec: the closed set of ALU modes named by `AluMode` in
`Microcode.h`, which is not among the sources. -/
inductive AluMode where
  | INC_A
  | A_PLUS_B
  | A_MINUS_B
  | B_MINUS_A
  | A_AND_B
  | A_OR_B
  | A_XOR_B
  | NOT_A
  deriving DecidableEq, Repr

/-- Modelled from the spec: the declarations of `Constants.h` and `Microcode.h`
that the decoder uses and that are not among the sources.  The signal masks
(whose bit positions neither the sources nor the spec give), the two register
masks `Register::writeToBus` / `Register::readFromBus` as functions of the 3-bit
register code, the string helpers `Register::toString` / `Opcode::describe` and
the `AluOpcode` view of an opcode byte are all parameters of the embedding. -/
structure Decls where
  BW_PC : Nat
  BW_MEM : Nat
  BW_ALU : Nat
  PGM : Nat
  _MAW : Nat
  _MW : Nat
  _IRW : Nat
  _ALW : Nat
  _StPW : Nat
  PCC : Nat
  ALC : Nat
  ALB : Nat
  ALU_A_AND_B : Nat
  ALU_A_PLUS_B : Nat
  ALU_A_MINUS_B : Nat
  ALU_OFFSET : Nat
  LCD : Nat
  LCD_COMMAND : Nat
  LCD_DATA : Nat
  HLT : Nat
  _TR : Nat
  /-- Mask of `Register::writeToBus()` for a register code. -/
  writeToBus : Nat → Nat
  /-- Mask of `Register::readFromBus()` for a register code. -/
  readFromBus : Nat → Nat
  /-- Label of `Register::toString()` for a register code. -/
  regName : Nat → String
  /-- Text of `Opcode::describe()` for an opcode byte. -/
  describe : Nat → String
  /-- Text of `AluOpcode::describe()` for an opcode byte seen as an `AluOpcode`. -/
  aluDescribe : Nat → String
  /-- Value of `AluOpcode::aluMode()` for an opcode byte. -/
  aluMode : Nat → AluMode
  /-- Value of `AluOpcode::useCarry()` for an opcode byte. -/
  useCarry : Nat → Bool
  /-- Register code of `AluOpcode::aluReg()` for an opcode byte. -/
  aluReg : Nat → Nat
  /-- The integer an `AluMode` converts to in `mode << ALU_OFFSET`. -/
  modeBits : AluMode → Nat

/-- Modelled from the spec: `EepromAddress` (declared in `Microcode.h`, not among
the sources) seen through its accessors: the opcode byte, the microtime counter
and the four condition flags. -/
structure EepromAddress where
  opcode : Nat
  microtime : Nat
  isCarryFlagSet : Bool
  isZeroFlagSet : Bool
  isOverflowFlagSet : Bool
  isNegativeFlagSet : Bool

namespace Register

/-- Modelled from the spec: the 3-bit register codes of §3 (0=PC, 1=Ra, 2=Rb,
3=Rc, 4=Rd, 5=StP, 6=StPi, 7=Imm); `Register` equality and `<` compare codes. -/
def PC : Nat := 0

/-- Modelled from the spec: code of Ra. -/
def Ra : Nat := 1

/-- Modelled from the spec: code of Rb. -/
def Rb : Nat := 2

/-- Modelled from the spec: code of Rc. -/
def Rc : Nat := 3

/-- Modelled from the spec: code of Rd. -/
def Rd : Nat := 4

/-- Modelled from the spec: code of the stack pointer. -/
def StP : Nat := 5

/-- Modelled from the spec: code of the stack-pointer-indirect pseudo register. -/
def StPi : Nat := 6

/-- Modelled from the spec: code of the accumulator.  The source comment
`clra: 00 110 111` on the branch `dest == Register::Acc()` fixes it to 0b110. -/
def Acc : Nat := 6

/-- Modelled from the spec: code of the immediate pseudo register. -/
def Imm : Nat := 7

end Register

namespace Opcode

/-- Modelled from the spec: `Opcode::group`, the top two bits of the opcode byte
(MOV=0b00, LOD=0b01, STO=0b10, ALU=0b11). -/
def group (opcode : Nat) : Nat := opcode / 64 % 4

/-- Modelled from the spec: `Opcode::destReg`, bits [5:3] of the opcode byte. -/
def destReg (opcode : Nat) : Nat := opcode / 8 % 8

/-- Modelled from the spec: `Opcode::srcReg`, bits [2:0] of the opcode byte. -/
def srcReg (opcode : Nat) : Nat := opcode % 8

end Opcode

namespace OpcodeGroup

/-- Modelled from the spec: group code of MOV. -/
def MOV_BITS : Nat := 0

/-- Modelled from the spec: group code of LOD. -/
def LOD_BITS : Nat := 1

/-- Modelled from the spec: group code of STO. -/
def STO_BITS : Nat := 2

/-- Modelled from the spec: group code of ALU. -/
def ALU_BITS : Nat := 3

end OpcodeGroup

/-- First real step (`STEP1 = 2`). -/
def STEP1 : Nat := 2

/-- Constant `STEP2 = STEP1 + 1`. -/
def STEP2 : Nat := STEP1 + 1

/-- Constant `STEP3 = STEP1 + 2`. -/
def STEP3 : Nat := STEP1 + 2

/-- Constant `STEP4 = STEP1 + 3`. -/
def STEP4 : Nat := STEP1 + 3

/-- Constant `STEP5 = STEP1 + 4`. -/
def STEP5 : Nat := STEP1 + 4

/-- Constant `STEP6 = STEP1 + 5`. -/
def STEP6 : Nat := STEP1 + 5

/-- Constant `INSTRUCTION_END = _TR`. -/
def INSTRUCTION_END (K : Decls) : Nat := K._TR

/-- Constant `READ_PROGRAM_MEMORY = PGM | BW_MEM`. -/
def READ_PROGRAM_MEMORY (K : Decls) : Nat := K.PGM ||| K.BW_MEM

/-- Constant `READ_MEMORY = BW_MEM`. -/
def READ_MEMORY (K : Decls) : Nat := K.BW_MEM

/-- Constant `SET_MAW_FROM_PC = Register::PC().writeToBus() | _MAW`. -/
def SET_MAW_FROM_PC (K : Decls) : Nat := K.writeToBus Register.PC ||| K._MAW

/-- The function `getImmediateMovControlWord(dest, microtime, desc)`. -/
def getImmediateMovControlWord (K : Decls) (dest : Nat) (microtime : Nat)
    (_desc : String) : Nat × String :=
  let desc :=
    if dest = Register.PC then "jmpi Imm"
    else "movi " ++ K.regName dest ++ ", " ++ "Imm"
  if microtime = STEP1 then (SET_MAW_FROM_PC K, desc)
  else if microtime = STEP2 then
    ((if dest = Register.PC then 0 else K.PCC) ||| READ_PROGRAM_MEMORY K
      ||| K.readFromBus dest ||| INSTRUCTION_END K, desc)
  else (INSTRUCTION_END K, desc)

/-- The function `getClearAllControlWord(microtime, desc)`. -/
def getClearAllControlWord (K : Decls) (microtime : Nat) (_desc : String) :
    Nat × String :=
  let desc := "clra"
  if microtime = STEP1 then
    (K.writeToBus Register.PC ||| K.ALU_A_AND_B ||| K._ALW, desc)
  else if microtime = STEP2 then
    (K.writeToBus Register.Acc |||
      K.readFromBus Register.Ra |||
      K.readFromBus Register.Rb |||
      K.readFromBus Register.Rc |||
      K.readFromBus Register.Rd |||
      K.readFromBus Register.StP |||
      INSTRUCTION_END K, desc)
  else (INSTRUCTION_END K, desc)

/-- The flag selectors local to `getConditionalJumpControlWord`. -/
def Carry : Nat := 0b000

/-- Selector of the zero flag. -/
def Zero : Nat := 0b001

/-- Selector of the overflow flag. -/
def Oflow : Nat := 0b010

/-- Selector of the negative flag. -/
def Neg : Nat := 0b100

/-- Selector `NotCarry = (~Carry) & 0x7`; `~` complements the operand promoted to 32 bits. -/
def NotCarry : Nat := (0xFFFFFFFF - Carry) &&& 0x7

/-- Selector `NotZero = (~Zero) & 0x7`. -/
def NotZero : Nat := (0xFFFFFFFF - Zero) &&& 0x7

/-- Selector `NotOflow = (~Oflow) & 0x7`. -/
def NotOflow : Nat := (0xFFFFFFFF - Oflow) &&& 0x7

/-- Selector `NotNeg = (~Neg) & 0x7`. -/
def NotNeg : Nat := (0xFFFFFFFF - Neg) &&& 0x7

/-- The first `switch` of `getConditionalJumpControlWord`: the description and
the jump decision selected by the src field (`doJump` starts `false`, `desc`
starts as the caller's string). -/
def jumpSelect (address : EepromAddress) (desc : String) : String × Bool :=
  let sel := Opcode.srcReg address.opcode
  if sel = Carry then ("jc", address.isCarryFlagSet)
  else if sel = Zero then ("jz", address.isZeroFlagSet)
  else if sel = Oflow then ("jo", address.isOverflowFlagSet)
  else if sel = Neg then ("jn", address.isNegativeFlagSet)
  else if sel = NotCarry then ("jnc", !address.isCarryFlagSet)
  else if sel = NotZero then ("jnz", !address.isZeroFlagSet)
  else if sel = NotOflow then ("jno", !address.isOverflowFlagSet)
  else if sel = NotNeg then ("jnn", !address.isNegativeFlagSet)
  else (desc, false)

/-- The function `getConditionalJumpControlWord(address, desc)`. -/
def getConditionalJumpControlWord (K : Decls) (address : EepromAddress)
    (desc : String) : Nat × String :=
  let r := jumpSelect address desc
  let desc := r.1
  let doJump := r.2
  if doJump then
    if address.microtime = STEP1 then (SET_MAW_FROM_PC K, desc)
    else if address.microtime = STEP2 then
      (READ_PROGRAM_MEMORY K ||| K.readFromBus Register.PC ||| INSTRUCTION_END K, desc)
    else (INSTRUCTION_END K, desc)
  else
    if address.microtime = STEP1 then (K.PCC, desc)
    else (INSTRUCTION_END K, desc)

/-- The function `getMovControlWord(address, desc)`. -/
def getMovControlWord (K : Decls) (address : EepromAddress) (desc : String) :
    Nat × String :=
  let opcode := address.opcode
  let dest := Opcode.destReg opcode
  let src := Opcode.srcReg opcode
  if dest = Register.Imm then
    getConditionalJumpControlWord K address desc
  else if src = Register.Imm then
    if dest = Register.Acc then
      getClearAllControlWord K address.microtime desc
    else
      getImmediateMovControlWord K dest address.microtime desc
  else if dest = Register.Acc then
    if src = Register.PC then
      let desc := "jmz"
      if address.microtime = STEP1 then
        (K.writeToBus Register.PC ||| K.ALU_A_AND_B ||| K._ALW, desc)
      else if address.microtime = STEP2 then
        (K.writeToBus Register.Acc ||| K.readFromBus Register.PC ||| INSTRUCTION_END K, desc)
      else (INSTRUCTION_END K, desc)
    else if src ≠ dest then
      let desc := "tst " ++ K.regName src
      if address.microtime = STEP1 then
        (K.writeToBus src ||| K.ALU_A_PLUS_B ||| K._ALW ||| INSTRUCTION_END K, desc)
      else (INSTRUCTION_END K, desc)
    else (INSTRUCTION_END K, desc)
  else if src ≠ dest then
    let desc :=
      if dest = Register.PC then "jmp " ++ K.regName src
      else K.describe opcode
    if address.microtime = STEP1 then
      (K.writeToBus src ||| K.readFromBus dest ||| INSTRUCTION_END K, desc)
    else (INSTRUCTION_END K, desc)
  else if dest = Register.PC then
    (K.HLT, "hlt")
  else if dest = Register.Ra then
    (INSTRUCTION_END K, "nop")
  else (INSTRUCTION_END K, desc)

/-- The function `getLodControlWord(address, desc)`. -/
def getLodControlWord (K : Decls) (address : EepromAddress) (desc : String) :
    Nat × String :=
  let opcode := address.opcode
  let dest := Opcode.destReg opcode
  let src := Opcode.srcReg opcode
  if dest = Register.StPi then
    if src < Register.StP then
      let desc := "peek " ++ K.regName src
      if address.microtime = STEP1 then (K.writeToBus Register.StP ||| K._MAW, desc)
      else if address.microtime = STEP2 then
        (K.readFromBus src ||| K.BW_MEM ||| INSTRUCTION_END K, desc)
      else (K._TR, desc)
    else if src = Register.StP then
      let desc := "lcc mem"
      if address.microtime = STEP1 then (K._MAW ||| K.BW_PC, desc)
      else if address.microtime = STEP2 then
        (K.PCC ||| K.BW_MEM ||| K.PGM ||| K._MAW, desc)
      else if address.microtime = STEP3 then
        (K.BW_MEM ||| K.LCD_COMMAND ||| K.LCD ||| INSTRUCTION_END K, desc)
      else (K._TR, desc)
    else if src = Register.PC then
      let desc := "lcd mem"
      if address.microtime = STEP1 then (K._MAW ||| K.BW_PC, desc)
      else if address.microtime = STEP2 then
        (K.PCC ||| K.BW_MEM ||| K.PGM ||| K._MAW, desc)
      else if address.microtime = STEP3 then
        (K.BW_MEM ||| K._ALW ||| K.ALU_A_PLUS_B, desc)
      else if address.microtime = STEP4 then
        (K.LCD_DATA ||| K.LCD ||| K.writeToBus Register.Acc ||| INSTRUCTION_END K, desc)
      else (K._TR, desc)
    else if src = Register.StPi then
      let desc := "lcc pgm"
      if address.microtime = STEP1 then (K._MAW ||| K.BW_PC, desc)
      else if address.microtime = STEP2 then
        (K.PCC ||| K.BW_MEM ||| K.PGM ||| K._MAW, desc)
      else if address.microtime = STEP3 then
        (K.BW_MEM ||| K.PGM ||| K._ALW ||| K.ALU_A_PLUS_B, desc)
      else if address.microtime = STEP4 then
        (K.LCD_COMMAND ||| K.LCD ||| K.writeToBus Register.Acc ||| INSTRUCTION_END K, desc)
      else (K._TR, desc)
    else if src = Register.Imm then
      let desc := "lcd pgm"
      if address.microtime = STEP1 then (K._MAW ||| K.BW_PC, desc)
      else if address.microtime = STEP2 then
        (K.PCC ||| K.BW_MEM ||| K.PGM ||| K._MAW, desc)
      else if address.microtime = STEP3 then
        (K.BW_MEM ||| K.PGM ||| K.LCD_DATA ||| K.LCD ||| INSTRUCTION_END K, desc)
      else (K._TR, desc)
    else (K._TR, desc)
  else if src = Register.StPi then
    if dest = Register.PC then
      let desc := "ret"
      if address.microtime = STEP1 then
        (K.writeToBus Register.Acc ||| K.readFromBus Register.PC, desc)
      else if address.microtime = STEP2 then
        (K.writeToBus Register.StP ||| K._ALW ||| K.ALC ||| K.ALU_A_PLUS_B ||| K._MAW, desc)
      else if address.microtime = STEP3 then
        (K.readFromBus Register.StP ||| K.BW_ALU, desc)
      else if address.microtime = STEP4 then
        (K.writeToBus Register.PC ||| K._ALW ||| K.ALU_A_PLUS_B, desc)
      else if address.microtime = STEP5 then
        (K.readFromBus dest ||| K.BW_MEM ||| INSTRUCTION_END K, desc)
      else (K._TR, desc)
    else if dest ≠ Register.Imm then
      let desc := "pop " ++ K.regName dest
      if address.microtime = STEP1 then
        (K.writeToBus Register.StP ||| K._ALW ||| K.ALC ||| K.ALU_A_PLUS_B ||| K._MAW, desc)
      else if address.microtime = STEP2 then
        (K.readFromBus Register.StP ||| K.BW_ALU, desc)
      else if address.microtime = STEP3 then
        (K.readFromBus dest ||| K.BW_MEM ||| INSTRUCTION_END K, desc)
      else (K._TR, desc)
    else
      let desc := "lcc imm"
      if address.microtime = STEP1 then (K._MAW ||| K.BW_PC, desc)
      else if address.microtime = STEP2 then
        (K.PCC ||| K.BW_MEM ||| K.PGM ||| K._ALW ||| K.ALU_A_PLUS_B, desc)
      else if address.microtime = STEP3 then
        (K.LCD_COMMAND ||| K.LCD ||| K.writeToBus Register.Acc ||| INSTRUCTION_END K, desc)
      else (K._TR, desc)
  else if src = Register.Imm then
    if dest ≠ src then
      let desc := K.describe opcode ++ " (" ++ K.regName dest ++ " = *Imm)"
      if address.microtime = STEP1 then (K._MAW ||| K.BW_PC, desc)
      else if address.microtime = STEP2 then
        (K.PCC ||| K.BW_MEM ||| K.PGM ||| K._MAW, desc)
      else if address.microtime = STEP3 then
        (K.BW_MEM ||| K.readFromBus dest ||| INSTRUCTION_END K, desc)
      else (K._TR, desc)
    else
      let desc := "lcd imm"
      if address.microtime = STEP1 then (K._MAW ||| K.BW_PC, desc)
      else if address.microtime = STEP2 then
        (K.PCC ||| K.BW_MEM ||| K.PGM ||| K.LCD_DATA ||| K.LCD ||| INSTRUCTION_END K, desc)
      else (K._TR, desc)
  else if dest = Register.Imm then
    let desc := "clr " ++ K.regName src
    if address.microtime = STEP1 then
      (K.writeToBus Register.PC ||| K.ALU_A_AND_B ||| K._ALW, desc)
    else if address.microtime = STEP2 then
      (K.writeToBus Register.Acc ||| K.readFromBus src ||| INSTRUCTION_END K, desc)
    else (K._TR, desc)
  else
    let desc := K.describe opcode ++ " (" ++ K.regName dest ++ " = " ++
      (if src = Register.Rc then "PGM*" else "*") ++ K.regName src ++ ")"
    if address.microtime = STEP1 then (K._MAW ||| K.writeToBus src, desc)
    else if address.microtime = STEP2 then
      ((if src = Register.Rc then K.PGM else 0) ||| K.BW_MEM ||| K.readFromBus dest
        ||| INSTRUCTION_END K, desc)
    else (K._TR, desc)

/-- The function `getStoControlWord(address, desc)`. -/
def getStoControlWord (K : Decls) (address : EepromAddress) (_desc : String) :
    Nat × String :=
  let opcode := address.opcode
  let dest := Opcode.destReg opcode
  let src := Opcode.srcReg opcode
  if dest = Register.StPi then
    if src = Register.Imm then
      let desc := "pushi <= Imm"
      if address.microtime = STEP1 then
        (K.writeToBus Register.StP ||| K._ALW ||| K.ALU_A_MINUS_B, desc)
      else if address.microtime = STEP2 then (K._StPW ||| K.BW_ALU, desc)
      else if address.microtime = STEP3 then (K.writeToBus Register.PC ||| K._MAW, desc)
      else if address.microtime = STEP4 then
        (K.PCC ||| K.PGM ||| K.BW_MEM ||| K._ALW ||| K.ALU_A_PLUS_B, desc)
      else if address.microtime = STEP5 then (K.writeToBus Register.StP ||| K._MAW, desc)
      else if address.microtime = STEP6 then
        (K._MW ||| K.writeToBus Register.Acc ||| INSTRUCTION_END K, desc)
      else (K._TR, desc)
    else if src = Register.PC then
      let desc := "call Rc"
      if address.microtime = STEP1 then
        (K.writeToBus Register.StP ||| K._ALW ||| K.ALU_A_MINUS_B, desc)
      else if address.microtime = STEP2 then (K._StPW ||| K.BW_ALU ||| K._MAW, desc)
      else if address.microtime = STEP3 then (K.writeToBus Register.PC ||| K._MW, desc)
      else if address.microtime = STEP4 then
        (K.writeToBus Register.Rc ||| K.readFromBus Register.PC ||| INSTRUCTION_END K, desc)
      else (K._TR, desc)
    else
      let desc := "push <= " ++ K.regName src
      if address.microtime = STEP1 then
        (K.writeToBus Register.StP ||| K._ALW ||| K.ALU_A_MINUS_B, desc)
      else if address.microtime = STEP2 then (K._StPW ||| K.BW_ALU ||| K._MAW, desc)
      else if address.microtime = STEP3 then
        (K.writeToBus src ||| K._MW ||| INSTRUCTION_END K, desc)
      else (K._TR, desc)
  else if dest = Register.Imm then
    if src = Register.PC then
      let desc := "calli"
      if address.microtime = STEP1 then
        (K.writeToBus Register.StP ||| K._ALW ||| K.ALU_A_MINUS_B, desc)
      else if address.microtime = STEP2 then (K._StPW ||| K.BW_ALU ||| K._MAW, desc)
      else if address.microtime = STEP3 then
        (K.writeToBus src ||| K._ALW ||| K.ALU_A_PLUS_B ||| K.ALC, desc)
      else if address.microtime = STEP4 then (K.BW_ALU ||| K._MW, desc)
      else if address.microtime = STEP5 then (K.writeToBus src ||| K._MAW, desc)
      else if address.microtime = STEP6 then
        (K.PGM ||| K.BW_MEM ||| K.readFromBus src ||| INSTRUCTION_END K, desc)
      else (K._TR, desc)
    else
      if src = Register.Imm then
        let desc := "stoi (PGM*Imm2 = Imm1)"
        if address.microtime = STEP1 then (K.writeToBus Register.PC ||| K._MAW, desc)
        else if address.microtime = STEP2 then
          (K.PCC ||| K.PGM ||| K.BW_MEM ||| K._MAW ||| K._ALW ||| K.ALU_A_PLUS_B, desc)
        else if address.microtime = STEP3 then (K.writeToBus Register.PC ||| K._MAW, desc)
        else if address.microtime = STEP4 then
          (K.PCC ||| K.PGM ||| K.BW_MEM ||| K._MAW, desc)
        else if address.microtime = STEP5 then
          (K._MW ||| K.PGM ||| K.BW_ALU ||| INSTRUCTION_END K, desc)
        else (K._TR, desc)
      else
        let desc := "stoi " ++ K.regName src ++ " (*Imm = " ++ K.regName src ++ ")"
        if address.microtime = STEP1 then (K.writeToBus Register.PC ||| K._MAW, desc)
        else if address.microtime = STEP2 then
          (K.PCC ||| K.PGM ||| K.BW_MEM ||| K._MAW, desc)
        else if address.microtime = STEP3 then
          (K._MW ||| K.writeToBus src ||| INSTRUCTION_END K, desc)
        else (K._TR, desc)
  else if src = Register.StPi then
    if dest = Register.PC then
      let desc := "ret"
      if address.microtime = STEP1 then
        (K.writeToBus Register.Acc ||| K.readFromBus Register.PC, desc)
      else if address.microtime = STEP2 then
        (K.writeToBus Register.StP ||| K._ALW ||| K.ALC ||| K.ALU_A_PLUS_B ||| K._MAW, desc)
      else if address.microtime = STEP3 then
        (K.readFromBus Register.StP ||| K.BW_ALU, desc)
      else if address.microtime = STEP4 then
        (K.writeToBus Register.PC ||| K._ALW ||| K.ALU_A_PLUS_B, desc)
      else if address.microtime = STEP5 then
        (K.readFromBus dest ||| K.BW_MEM ||| INSTRUCTION_END K, desc)
      else (K._TR, desc)
    else
      let desc := "pop => " ++ K.regName dest
      if address.microtime = STEP1 then
        (K.writeToBus Register.StP ||| K._ALW ||| K.ALC ||| K.ALU_A_PLUS_B ||| K._MAW, desc)
      else if address.microtime = STEP2 then
        (K.readFromBus Register.StP ||| K.BW_ALU, desc)
      else if address.microtime = STEP3 then
        (K.readFromBus dest ||| K.BW_MEM ||| INSTRUCTION_END K, desc)
      else (K._TR, desc)
  else
    let desc := K.describe opcode ++ " (" ++
      (if dest = Register.Rc then "PGM" else "") ++ "*" ++ K.regName dest ++ " = " ++
      K.regName src ++ ")"
    if address.microtime = STEP1 then (K.writeToBus dest ||| K._MAW, desc)
    else if address.microtime = STEP2 then
      ((if dest = Register.Rc then K.PGM else 0) ||| K.writeToBus src ||| K._MW
        ||| INSTRUCTION_END K, desc)
    else (K._TR, desc)

/-- The mode and description updates of the `useCarry` branch of
`getAluControlWord`, with the control word of an early `return` when the LCD
cases hit `STEP1`: the result is the (possibly reassigned) mode, the description
and the early return, if any. -/
def aluCarryCase (K : Decls) (mode : AluMode) (reg : Nat) (microtime : Nat)
    (desc : String) : AluMode × String × Option Nat :=
  if mode = AluMode.A_OR_B then
    (AluMode.B_MINUS_A, "cmp Rb, " ++ K.regName reg, none)
  else if mode = AluMode.A_AND_B then
    (AluMode.A_MINUS_B, "cmp " ++ K.regName reg ++ ", Rb", none)
  else if mode = AluMode.A_XOR_B then
    (mode, "lcc " ++ K.regName reg,
      if microtime = STEP1 then
        some (K.LCD_COMMAND ||| K.LCD ||| K.writeToBus reg ||| INSTRUCTION_END K)
      else none)
  else if mode = AluMode.NOT_A then
    (mode, "lcd " ++ K.regName reg,
      if microtime = STEP1 then
        some (K.LCD_DATA ||| K.LCD ||| K.writeToBus reg ||| INSTRUCTION_END K)
      else none)
  else (mode, desc, none)

/-- The function `getAluControlWord(address, desc)`. -/
def getAluControlWord (K : Decls) (address : EepromAddress) (desc : String) :
    Nat × String :=
  let opcode := address.opcode
  let reg := K.aluReg opcode
  let mode := K.aluMode opcode
  if mode = AluMode.INC_A then
    let dec := K.useCarry opcode
    let desc := (if dec then "dec " else "inc ") ++ K.regName reg
    if address.microtime = STEP1 then
      (K.writeToBus reg ||| (if dec then K.ALU_A_MINUS_B else (K.ALU_A_PLUS_B ||| K.ALC))
        ||| K._ALW, desc)
    else if address.microtime = STEP2 then
      (K.readFromBus reg ||| K.writeToBus Register.Acc ||| INSTRUCTION_END K, desc)
    else (K._TR, desc)
  else if mode = AluMode.A_PLUS_B then
    let desc := K.aluDescribe opcode
    if address.microtime = STEP1 then
      (K.writeToBus reg ||| K.ALB ||| (K.modeBits mode <<< K.ALU_OFFSET) ||| K._ALW |||
        (if K.useCarry opcode && address.isCarryFlagSet then K.ALC else 0), desc)
    else if address.microtime = STEP2 then
      (K.readFromBus reg ||| K.writeToBus Register.Acc ||| INSTRUCTION_END K, desc)
    else (K._TR, desc)
  else if mode = AluMode.A_MINUS_B ∨ mode = AluMode.B_MINUS_A then
    let desc := K.aluDescribe opcode
    if address.microtime = STEP1 then
      (K.writeToBus reg ||| K.ALB ||| (K.modeBits mode <<< K.ALU_OFFSET) ||| K._ALW |||
        (if K.useCarry opcode && address.isCarryFlagSet then 0 else K.ALC), desc)
    else if address.microtime = STEP2 then
      (K.readFromBus reg ||| K.writeToBus Register.Acc ||| INSTRUCTION_END K, desc)
    else (K._TR, desc)
  else if K.useCarry opcode then
    let r := aluCarryCase K mode reg address.microtime desc
    match r.2.2 with
    | some word => (word, r.2.1)
    | none =>
      if address.microtime = STEP1 then
        (K.writeToBus reg ||| K.ALB ||| K.ALC ||| (K.modeBits r.1 <<< K.ALU_OFFSET)
          ||| K._ALW ||| INSTRUCTION_END K, r.2.1)
      else (K._TR, r.2.1)
  else
    let desc := K.aluDescribe opcode
    let mode := if mode = AluMode.NOT_A then AluMode.B_MINUS_A else mode
    if address.microtime = STEP1 then
      (K.writeToBus reg ||| K.ALB ||| (K.modeBits mode <<< K.ALU_OFFSET) ||| K._ALW, desc)
    else if address.microtime = STEP2 then
      (K.readFromBus reg ||| K.writeToBus Register.Acc ||| INSTRUCTION_END K, desc)
    else (K._TR, desc)

/-- The function `getControlWord(address, desc)`: the control word for an
address, with the description string as the call leaves it. -/
def getControlWord (K : Decls) (address : EepromAddress) (desc : String) :
    Nat × String :=
  if address.microtime = 0 then (K.BW_PC ||| K._MAW, desc)
  else if address.microtime = 1 then (READ_PROGRAM_MEMORY K ||| K._IRW ||| K.PCC, desc)
  else
    let group := Opcode.group address.opcode
    if group = OpcodeGroup.MOV_BITS then getMovControlWord K address desc
    else if group = OpcodeGroup.LOD_BITS then getLodControlWord K address desc
    else if group = OpcodeGroup.STO_BITS then getStoControlWord K address desc
    else if group = OpcodeGroup.ALU_BITS then getAluControlWord K address desc
    else (0, desc)

/-- A control word ends the instruction when every bit of `_TR` is set in it. -/
def hasTR (K : Decls) (word : Nat) : Prop := word &&& K._TR = K._TR

instance (K : Decls) (word : Nat) : Decidable (hasTR K word) := by
  unfold hasTR; infer_instance

/-- Modelled from the spec: the `AluOpcode` mode table of §4.1, selected by the
use-carry bit (bit 5) and the two mode bits (bits [4:3]). -/
def specAluMode (opcode : Nat) : AluMode :=
  match opcode / 32 % 2, opcode / 8 % 4 with
  | 0, 0 => AluMode.INC_A
  | 0, 1 => AluMode.A_PLUS_B
  | 0, 2 => AluMode.A_MINUS_B
  | 0, _ => AluMode.B_MINUS_A
  | _, 0 => AluMode.A_AND_B
  | _, 1 => AluMode.A_OR_B
  | _, 2 => AluMode.A_XOR_B
  | _, _ => AluMode.NOT_A

/-- Modelled from the spec: the register labels of §3. -/
def specRegName (code : Nat) : String :=
  match code with
  | 0 => "PC"
  | 1 => "Ra"
  | 2 => "Rb"
  | 3 => "Rc"
  | 4 => "Rd"
  | 5 => "StP"
  | 6 => "StPi"
  | _ => "Imm"

/-- The position of an ALU mode in the mode table of §4.1. -/
def specModeBits : AluMode → Nat
  | AluMode.INC_A => 0
  | AluMode.A_PLUS_B => 1
  | AluMode.A_MINUS_B => 2
  | AluMode.B_MINUS_A => 3
  | AluMode.A_AND_B => 4
  | AluMode.A_OR_B => 5
  | AluMode.A_XOR_B => 6
  | AluMode.NOT_A => 7

/-- Modelled from the spec: one concrete assignment of the missing declarations,
used to evaluate the decoder on concrete addresses.  Register labels, the
`AluOpcode` fields and `BW_PC` as the bus-write mask of PC follow the spec; the
bit positions, which the spec leaves open, are chosen one signal per bit of a
32-bit word: bus-write sources on bits 0..8 (registers 0..6, memory, ALU),
bus-read sinks on bits 9..15, the ALU mode on bits 24..26; the immediate pseudo
register drives and latches nothing and `_StPW` is the latch of StP. -/
def sampleDecls : Decls where
  writeToBus := fun r => if r < 7 then 2 ^ r else 0
  BW_PC := 2 ^ 0
  BW_MEM := 2 ^ 7
  BW_ALU := 2 ^ 8
  readFromBus := fun r => if r < 7 then 2 ^ (9 + r) else 0
  _StPW := 2 ^ 14
  PGM := 2 ^ 16
  _MAW := 2 ^ 17
  _MW := 2 ^ 18
  _IRW := 2 ^ 19
  _ALW := 2 ^ 20
  PCC := 2 ^ 21
  ALC := 2 ^ 22
  ALB := 2 ^ 23
  ALU_OFFSET := 24
  modeBits := specModeBits
  ALU_A_AND_B := 4 <<< 24
  ALU_A_PLUS_B := 1 <<< 24
  ALU_A_MINUS_B := 2 <<< 24
  LCD := 2 ^ 27
  LCD_COMMAND := 2 ^ 28
  LCD_DATA := 2 ^ 29
  HLT := 2 ^ 30
  _TR := 2 ^ 31
  regName := specRegName
  describe := fun opcode =>
    "op " ++ specRegName (Opcode.destReg opcode) ++ ", " ++ specRegName (Opcode.srcReg opcode)
  aluDescribe := fun opcode => "alu " ++ specRegName (opcode % 8)
  aluMode := specAluMode
  useCarry := fun opcode => opcode / 32 % 2 == 1
  aluReg := fun opcode => opcode % 8

/-- The opcode is `hlt`: MOV group with src = dest = PC. -/
def isHlt (opcode : Nat) : Prop :=
  Opcode.group opcode = OpcodeGroup.MOV_BITS ∧
    Opcode.destReg opcode = Register.PC ∧ Opcode.srcReg opcode = Register.PC

/-- The opcode is `pushi`: STO group with dest = StPi, src = Imm. -/
def isPushi (opcode : Nat) : Prop :=
  Opcode.group opcode = OpcodeGroup.STO_BITS ∧
    Opcode.destReg opcode = Register.StPi ∧ Opcode.srcReg opcode = Register.Imm

/-- The opcode is `calli`: STO group with dest = Imm, src = PC. -/
def isCalli (opcode : Nat) : Prop :=
  Opcode.group opcode = OpcodeGroup.STO_BITS ∧
    Opcode.destReg opcode = Register.Imm ∧ Opcode.srcReg opcode = Register.PC

instance (opcode : Nat) : Decidable (isHlt opcode) := by
  unfold isHlt; infer_instance

instance (opcode : Nat) : Decidable (isPushi opcode) := by
  unfold isPushi; infer_instance

instance (opcode : Nat) : Decidable (isCalli opcode) := by
  unfold isCalli; infer_instance

/-- The jump decision in the words of the spec: the flag selected by the 3-bit
selector (000: C, 001: Z, 010: O, 100: N) or its negation for the complemented
selector (111: not C, 110: not Z, 101: not O, 011: not N). -/
def specJumpTaken (sel : Nat) (c z o n : Bool) : Bool :=
  match sel with
  | 0b000 => c
  | 0b001 => z
  | 0b010 => o
  | 0b100 => n
  | 0b111 => !c
  | 0b110 => !z
  | 0b101 => !o
  | 0b011 => !n
  | _ => false

/-- The mnemonic of a conditional jump in the words of the spec. -/
def specJumpName (sel : Nat) : String :=
  match sel with
  | 0b000 => "jc"
  | 0b001 => "jz"
  | 0b010 => "jo"
  | 0b100 => "jn"
  | 0b111 => "jnc"
  | 0b110 => "jnz"
  | 0b101 => "jno"
  | 0b011 => "jnn"
  | _ => ""

/-- A word has at most one bit set: it is zero or a power of two. -/
def atMostOneBit (x : Nat) : Prop := x = 0 ∨ ∃ k, x = 2 ^ k

/-- A bus-write source: the bus-write mask of a register, `BW_PC`, `BW_MEM` or
`BW_ALU`. -/
inductive BusSource where
  | write (code : Nat)
  | BW_PC
  | BW_MEM
  | BW_ALU

/-- The mask a bus-write source contributes to a control word. -/
def BusSource.mask (K : Decls) : BusSource → Nat
  | BusSource.write code => K.writeToBus code
  | BusSource.BW_PC => K.BW_PC
  | BusSource.BW_MEM => K.BW_MEM
  | BusSource.BW_ALU => K.BW_ALU

/-- A signal of the control word that is not a bus-write source. -/
inductive OtherSignal where
  | read (code : Nat)
  | mode (m : AluMode)
  | PGM | _MAW | _MW | _IRW | _ALW | _StPW | PCC | ALC | ALB
  | ALU_A_AND_B | ALU_A_PLUS_B | ALU_A_MINUS_B
  | LCD | LCD_COMMAND | LCD_DATA | HLT | _TR

/-- The mask a signal other than a bus-write source contributes to a control word. -/
def OtherSignal.mask (K : Decls) : OtherSignal → Nat
  | OtherSignal.read code => K.readFromBus code
  | OtherSignal.mode m => K.modeBits m <<< K.ALU_OFFSET
  | OtherSignal.PGM => K.PGM
  | OtherSignal._MAW => K._MAW
  | OtherSignal._MW => K._MW
  | OtherSignal._IRW => K._IRW
  | OtherSignal._ALW => K._ALW
  | OtherSignal._StPW => K._StPW
  | OtherSignal.PCC => K.PCC
  | OtherSignal.ALC => K.ALC
  | OtherSignal.ALB => K.ALB
  | OtherSignal.ALU_A_AND_B => K.ALU_A_AND_B
  | OtherSignal.ALU_A_PLUS_B => K.ALU_A_PLUS_B
  | OtherSignal.ALU_A_MINUS_B => K.ALU_A_MINUS_B
  | OtherSignal.LCD => K.LCD
  | OtherSignal.LCD_COMMAND => K.LCD_COMMAND
  | OtherSignal.LCD_DATA => K.LCD_DATA
  | OtherSignal.HLT => K.HLT
  | OtherSignal._TR => K._TR

/-- The bitwise OR of the masks of a list of signals. -/
def orSignals (K : Decls) (others : List OtherSignal) : Nat :=
  others.foldr (fun s w => OtherSignal.mask K s ||| w) 0

/-- The mask of at most one bus-write source: zero when there is none. -/
def sourceMask (K : Decls) : Option BusSource → Nat
  | none => 0
  | some s => BusSource.mask K s

/-- The word is the OR of signals none of which is a bus-write source. -/
def NoBusSource (K : Decls) (w : Nat) : Prop :=
  ∃ others : List OtherSignal, w = orSignals K others

/-- The word is the OR of at most one bus-write source and of signals that are
not bus-write sources. -/
def AtMostOneBusSource (K : Decls) (w : Nat) : Prop :=
  ∃ (source : Option BusSource) (others : List OtherSignal),
    w = sourceMask K source ||| orSignals K others

/-- Modelled from the spec: a layout in which the bus-write and bus-read masks of
a register are the two 3-bit code fields of sections 4.1 and 6, holding the
register code itself: the bus-source field is bits 0..2, the bus-sink field bits
3..5, and `BW_PC` is the bus-write mask of PC (code 0).  Every other signal is
placed as in `sampleDecls`. -/
def codedDecls : Decls :=
  { sampleDecls with
    writeToBus := fun r => r % 8
    readFromBus := fun r => (r % 8) <<< 3
    BW_PC := 0 }

end Microcode

/-!
The character LCD model of `src/Emulator/SimLib/lcd.c`.

C `int` values are embedded as `Int` (no overflow is modelled: the products of
the code stay far below 32 bits for the sizes an LCD can have, and signed
overflow is undefined in C).  A `byte` is a `Nat` below 256.  The two buffers
`data` and `pixels` are embedded as memory seen from their base pointer: a
function from the offset to the cell, so that `lcd->ptr` is the offset
`ptr - data`.  Allocation is taken to succeed.
-/

namespace Lcd

/-- Modelled from the spec: the declarations of `lcd.h` that the spec does not
fix and that are not among the sources: the DDRAM stride `LINE_WIDTH` and the
flag masks `LCD_CMD_ENTRY_MODE_INCREMENT` and `LCD_CMD_SHIFT_CURSOR`. -/
structure Header where
  LINE_WIDTH : Int
  LCD_CMD_ENTRY_MODE_INCREMENT : Nat
  LCD_CMD_SHIFT_CURSOR : Nat

/-- Modelled from the spec: command mask CLEAR (bit 0) of `lcd.h`, §4.6. -/
def LCD_CMD_CLEAR : Nat := 0x01

/-- Modelled from the spec: command mask HOME (bit 1). -/
def LCD_CMD_HOME : Nat := 0x02

/-- Modelled from the spec: command mask ENTRY_MODE (bit 2). -/
def LCD_CMD_ENTRY_MODE : Nat := 0x04

/-- Modelled from the spec: command mask DISPLAY (bit 3). -/
def LCD_CMD_DISPLAY : Nat := 0x08

/-- Modelled from the spec: command mask SHIFT (bit 4). -/
def LCD_CMD_SHIFT : Nat := 0x10

/-- Modelled from the spec: command mask SET_CGRAM_ADDR (bit 6). -/
def LCD_CMD_SET_CGRAM_ADDR : Nat := 0x40

/-- Modelled from the spec: command mask SET_DRAM_ADDR (bit 7). -/
def LCD_CMD_SET_DRAM_ADDR : Nat := 0x80

/-- Constant `CHAR_WIDTH` of lcd.c. -/
def CHAR_WIDTH : Int := 5

/-- Constant `CHAR_HEIGHT` of lcd.c. -/
def CHAR_HEIGHT : Int := 8

/-- Constant `DATA_WIDTH` of lcd.c. -/
def DATA_WIDTH : Int := 40

/-- Constant `DATA_HEIGHT` of lcd.c. -/
def DATA_HEIGHT : Int := 4

/-- The record `struct LCD_s`; `data` and `pixels` hold the memory at the two
buffers and `ptr` is the cursor as the offset `ptr - data`. -/
structure LCD where
  width : Int
  height : Int
  entryModeFlags : Nat
  displayFlags : Nat
  data : Int → Nat
  ptr : Int
  pixels : Int → Int
  scrollOffset : Int
  pixelsWidth : Int
  pixelsHeight : Int
  numPixels : Int

/-- The assignment `*(buf + offset) = value`. -/
def store {α : Type} (buf : Int → α) (offset : Int) (value : α) : Int → α :=
  fun i => if i = offset then value else buf i

/-- The call `memset(buf, value, count)`: the cells at offsets `0 .. count - 1`
are set.  (A negative count, which C would convert to a huge `size_t`, sets
nothing here.) -/
def memset {α : Type} (buf : Int → α) (value : α) (count : Int) : Int → α :=
  fun i => if 0 ≤ i ∧ i < count then value else buf i

/-- The table `lcd_font[128][5]`. -/
def lcd_font : List (List Nat) := [
  [0x00, 0x00, 0x00, 0x00, 0x00], [0x7c, 0xa2, 0x8a, 0xa2, 0x7c], [0x7c, 0xd6, 0xf6, 0xd6, 0x7c], [0x38, 0x7c, 0x3e, 0x7c, 0x38],
  [0x00, 0x38, 0x1c, 0x38, 0x00], [0x0c, 0x6c, 0xfe, 0x6c, 0x0c], [0x18, 0x3a, 0x7e, 0x3a, 0x18], [0x00, 0x18, 0x18, 0x00, 0x00],
  [0xff, 0xe7, 0xe7, 0xff, 0xff], [0x3c, 0x24, 0x24, 0x3c, 0x00], [0xc3, 0xdb, 0xdb, 0xc3, 0xff], [0x0c, 0x12, 0x52, 0x6c, 0x70],
  [0x60, 0x94, 0x9e, 0x94, 0x60], [0x06, 0x0e, 0xfc, 0x40, 0x20], [0x06, 0x7e, 0x50, 0xac, 0xfc], [0x18, 0x24, 0x24, 0x24, 0x18],
  [0x00, 0xfe, 0x7c, 0x38, 0x10], [0x10, 0x38, 0x7c, 0xfe, 0x00], [0x7e, 0x7e, 0x00, 0x7e, 0x7e], [0x3c, 0x3c, 0x3c, 0x3c, 0x00],
  [0x0a, 0x3a, 0xfa, 0x3a, 0x0a], [0xfe, 0x7c, 0x38, 0x10, 0xfe], [0xfe, 0x10, 0x38, 0x7c, 0xfe], [0x01, 0x01, 0x01, 0x01, 0x01],
  [0x03, 0x03, 0x03, 0x03, 0x03], [0x07, 0x07, 0x07, 0x07, 0x07], [0x0f, 0x0f, 0x0f, 0x0f, 0x0f], [0x1f, 0x1f, 0x1f, 0x1f, 0x1f],
  [0x3f, 0x3f, 0x3f, 0x3f, 0x3f], [0x7f, 0x7f, 0x7f, 0x7f, 0x7f], [0x00, 0x00, 0x00, 0x00, 0x00], [0x00, 0x00, 0x00, 0x00, 0x00],
  [0x00, 0x00, 0x00, 0x00, 0x00], [0x00, 0x60, 0xfa, 0x60, 0x00], [0xe0, 0xc0, 0x00, 0xe0, 0xc0], [0x24, 0x7e, 0x24, 0x7e, 0x24],
  [0x24, 0x54, 0xd6, 0x48, 0x00], [0xc6, 0xc8, 0x10, 0x26, 0xc6], [0x6c, 0x92, 0x6a, 0x04, 0x0a], [0x00, 0xe0, 0xc0, 0x00, 0x00],
  [0x00, 0x7c, 0x82, 0x00, 0x00], [0x00, 0x82, 0x7c, 0x00, 0x00], [0x10, 0x7c, 0x38, 0x7c, 0x10], [0x10, 0x10, 0x7c, 0x10, 0x10],
  [0x00, 0x07, 0x06, 0x00, 0x00], [0x10, 0x10, 0x10, 0x10, 0x10], [0x00, 0x06, 0x06, 0x00, 0x00], [0x04, 0x08, 0x10, 0x20, 0x40],
  [0x7c, 0x8a, 0x92, 0xa2, 0x7c], [0x00, 0x42, 0xfe, 0x02, 0x00], [0x46, 0x8a, 0x92, 0x92, 0x62], [0x44, 0x92, 0x92, 0x92, 0x6c],
  [0x18, 0x28, 0x48, 0xfe, 0x08], [0xf4, 0x92, 0x92, 0x92, 0x8c], [0x3c, 0x52, 0x92, 0x92, 0x0c], [0x80, 0x8e, 0x90, 0xa0, 0xc0],
  [0x6c, 0x92, 0x92, 0x92, 0x6c], [0x60, 0x92, 0x92, 0x94, 0x78], [0x00, 0x6c, 0x6c, 0x00, 0x00], [0x00, 0x37, 0x36, 0x00, 0x00],
  [0x10, 0x28, 0x44, 0x82, 0x00], [0x24, 0x24, 0x24, 0x24, 0x24], [0x00, 0x82, 0x44, 0x28, 0x10], [0x40, 0x80, 0x9a, 0x90, 0x60],
  [0x7c, 0x82, 0xba, 0xaa, 0x78], [0x7e, 0x88, 0x88, 0x88, 0x7e], [0xfe, 0x92, 0x92, 0x92, 0x6c], [0x7c, 0x82, 0x82, 0x82, 0x44],
  [0xfe, 0x82, 0x82, 0x82, 0x7c], [0xfe, 0x92, 0x92, 0x92, 0x82], [0xfe, 0x90, 0x90, 0x90, 0x80], [0x7c, 0x82, 0x92, 0x92, 0x5e],
  [0xfe, 0x10, 0x10, 0x10, 0xfe], [0x00, 0x82, 0xfe, 0x82, 0x00], [0x0c, 0x02, 0x02, 0x02, 0xfc], [0xfe, 0x10, 0x28, 0x44, 0x82],
  [0xfe, 0x02, 0x02, 0x02, 0x02], [0xfe, 0x40, 0x20, 0x40, 0xfe], [0xfe, 0x40, 0x20, 0x10, 0xfe], [0x7c, 0x82, 0x82, 0x82, 0x7c],
  [0xfe, 0x90, 0x90, 0x90, 0x60], [0x7c, 0x82, 0x8a, 0x84, 0x7a], [0xfe, 0x90, 0x90, 0x98, 0x66], [0x64, 0x92, 0x92, 0x92, 0x4c],
  [0x80, 0x80, 0xfe, 0x80, 0x80], [0xfc, 0x02, 0x02, 0x02, 0xfc], [0xf8, 0x04, 0x02, 0x04, 0xf8], [0xfc, 0x02, 0x3c, 0x02, 0xfc],
  [0xc6, 0x28, 0x10, 0x28, 0xc6], [0xe0, 0x10, 0x0e, 0x10, 0xe0], [0x8e, 0x92, 0xa2, 0xc2, 0x00], [0x00, 0xfe, 0x82, 0x82, 0x00],
  [0x40, 0x20, 0x10, 0x08, 0x04], [0x00, 0x82, 0x82, 0xfe, 0x00], [0x20, 0x40, 0x80, 0x40, 0x20], [0x01, 0x01, 0x01, 0x01, 0x01],
  [0x00, 0xc0, 0xe0, 0x00, 0x00], [0x04, 0x2a, 0x2a, 0x2a, 0x1e], [0xfe, 0x22, 0x22, 0x22, 0x1c], [0x1c, 0x22, 0x22, 0x22, 0x14],
  [0x1c, 0x22, 0x22, 0x22, 0xfe], [0x1c, 0x2a, 0x2a, 0x2a, 0x10], [0x10, 0x7e, 0x90, 0x90, 0x00], [0x18, 0x25, 0x25, 0x25, 0x3e],
  [0xfe, 0x20, 0x20, 0x1e, 0x00], [0x00, 0x00, 0xbe, 0x02, 0x00], [0x02, 0x01, 0x21, 0xbe, 0x00], [0xfe, 0x08, 0x14, 0x22, 0x00],
  [0x00, 0x00, 0xfe, 0x02, 0x00], [0x3e, 0x20, 0x18, 0x20, 0x1e], [0x3e, 0x20, 0x20, 0x1e, 0x00], [0x1c, 0x22, 0x22, 0x22, 0x1c],
  [0x3f, 0x22, 0x22, 0x22, 0x1c], [0x1c, 0x22, 0x22, 0x22, 0x3f], [0x22, 0x1e, 0x22, 0x20, 0x10], [0x10, 0x2a, 0x2a, 0x2a, 0x04],
  [0x20, 0x7c, 0x22, 0x24, 0x00], [0x3c, 0x02, 0x04, 0x3e, 0x00], [0x38, 0x04, 0x02, 0x04, 0x38], [0x3c, 0x06, 0x0c, 0x06, 0x3c],
  [0x36, 0x08, 0x08, 0x36, 0x00], [0x39, 0x05, 0x06, 0x3c, 0x00], [0x26, 0x2a, 0x2a, 0x32, 0x00], [0x10, 0x7c, 0x82, 0x82, 0x00],
  [0x00, 0x00, 0xff, 0x00, 0x00], [0x00, 0x82, 0x82, 0x7c, 0x10], [0x40, 0x80, 0x40, 0x80, 0x00], [0x01, 0x01, 0x01, 0x01, 0x00]
]

/-- The function `charBits(c)`. -/
def charBits (c : Nat) : List Nat :=
  if c < 128 then lcd_font.getD c [] else lcd_font.getD 0 []

/-- The body of the two inner loops of `updatePixels` for one character cell:
the 5×8 block of the character at (row, col) is written into the pixel buffer. -/
def drawChar (lcd : LCD) (row col : Nat) (pixels : Int → Int) : Int → Int :=
  let charTopLeft : Int :=
    (row : Int) * (CHAR_HEIGHT + 1) * lcd.pixelsWidth + (col : Int) * (CHAR_WIDTH + 1)
  let c := lcd.data ((row : Int) * (lcd.width + 1) + (col : Int))
  let bits := charBits c
  (List.range CHAR_HEIGHT.toNat).foldl
    (fun pixels (y : Nat) =>
      (List.range CHAR_WIDTH.toNat).foldl
        (fun pixels (x : Nat) =>
          store pixels (charTopLeft + (y : Int) * lcd.pixelsWidth + (x : Int))
            (if bits.getD x 0 &&& (0x80 >>> y) ≠ 0 then 1 else 0))
        pixels)
    pixels

/-- The function `updatePixels(lcd)`. -/
def updatePixels (lcd : LCD) : LCD :=
  { lcd with
    pixels :=
      (List.range lcd.height.toNat).foldl
        (fun pixels (row : Nat) =>
          (List.range lcd.width.toNat).foldl
            (fun pixels (col : Nat) => drawChar lcd row col pixels)
            pixels)
        lcd.pixels }

/-- The function `newLCD(width, height)`.  The record `raw` is the block that
`malloc` returns, with indeterminate contents: `newLCD` assigns neither
`entryModeFlags` nor `displayFlags`, which keep their indeterminate values. -/
def newLCD (H : Header) (raw : LCD) (width height : Int) : LCD :=
  let height := if height > 4 then 4 else height
  let datalen := H.LINE_WIDTH * height
  let data := memset raw.data 0 datalen
  let pixelsWidth := width * (CHAR_WIDTH + 1) - 1
  let pixelsHeight := height * (CHAR_HEIGHT + 1) - 1
  let numPixels := pixelsWidth * pixelsHeight
  let pixels := memset raw.pixels (-1) numPixels
  updatePixels
    { width := width
      height := height
      entryModeFlags := raw.entryModeFlags
      displayFlags := raw.displayFlags
      data := data
      ptr := 0
      pixels := pixels
      scrollOffset := 0
      pixelsWidth := pixelsWidth
      pixelsHeight := pixelsHeight
      numPixels := numPixels }

/-- The function `sendCommand(lcd, command)`. -/
def sendCommand (H : Header) (lcd : LCD) (command : Nat) : LCD :=
  if command &&& LCD_CMD_SET_DRAM_ADDR ≠ 0 then
    let offset : Int := ((command &&& 0x7f : Nat) : Int)
    let offset :=
      if offset < 0 then 0
      else if offset ≥ H.LINE_WIDTH * lcd.height then H.LINE_WIDTH * lcd.height - 1
      else offset
    { lcd with ptr := offset }
  else if command &&& LCD_CMD_SET_CGRAM_ADDR ≠ 0 then
    lcd
  else if command &&& LCD_CMD_SHIFT ≠ 0 then
    if command &&& H.LCD_CMD_SHIFT_CURSOR ≠ 0 then lcd else lcd
  else if command &&& LCD_CMD_DISPLAY ≠ 0 then
    { lcd with displayFlags := command }
  else if command &&& LCD_CMD_ENTRY_MODE ≠ 0 then
    { lcd with entryModeFlags := command }
  else if command &&& LCD_CMD_HOME ≠ 0 then
    { lcd with ptr := 0 }
  else if command &&& LCD_CMD_CLEAR ≠ 0 then
    let datalen := (lcd.width + 1) * lcd.height
    { lcd with data := memset lcd.data 0 datalen, ptr := 0 }
  else lcd

/-- The function `increment(lcd)`. -/
def increment (H : Header) (lcd : LCD) : LCD :=
  let ptr := lcd.ptr + 1
  let offset := ptr
  let ptr := if (offset + 1) % H.LINE_WIDTH = 0 then ptr + 1 else ptr
  let ptr := if ptr ≥ (lcd.width + 1) * lcd.height then 0 else ptr
  { lcd with ptr := ptr }

/-- The function `writeByte(lcd, data)`. -/
def writeByte (H : Header) (lcd : LCD) (data : Nat) : LCD :=
  let lcd := { lcd with data := store lcd.data lcd.ptr data }
  if lcd.entryModeFlags &&& H.LCD_CMD_ENTRY_MODE_INCREMENT ≠ 0 then increment H lcd
  else lcd

/-- The function `writeString(lcd, str)`: the bytes of `str` go through
`writeByte` up to the first NUL; the end of the list stands for the terminating
NUL of the C string. -/
def writeString (H : Header) (lcd : LCD) (str : List Nat) : LCD :=
  match str with
  | [] => lcd
  | c :: rest => if c = 0 then lcd else writeString H (writeByte H lcd c) rest

/-- The function `readByte(lcd)`. -/
def readByte (lcd : LCD) : Nat := lcd.data lcd.ptr

/-- The function `readLine(lcd, row)`: the returned pointer
`data + row * (width + 1)`, as the memory seen from it. -/
def readLine (lcd : LCD) (row : Int) : Int → Nat :=
  fun i => lcd.data (row * (lcd.width + 1) + i)

/-- The function `numPixels(lcd, &width, &height)`, with both out-pointers given. -/
def numPixels (lcd : LCD) : Int × Int := (lcd.pixelsWidth, lcd.pixelsHeight)

/-- The function `pixelState(lcd, x, y)`. -/
def pixelState (lcd : LCD) (x y : Int) : Int :=
  let offset := y * lcd.pixelsWidth + x
  if offset ≥ 0 ∧ offset < lcd.numPixels then lcd.pixels offset else -1

/-- One call of the public mutators of the LCD. -/
inductive Op where
  | command (byte : Nat)
  | write (byte : Nat)
  | writeStr (str : List Nat)

/-- The LCD after one call. -/
def step (H : Header) (lcd : LCD) : Op → LCD
  | Op.command c => sendCommand H lcd c
  | Op.write b => writeByte H lcd b
  | Op.writeStr s => writeString H lcd s

/-- The LCD after a finite sequence of calls. -/
def run (H : Header) (lcd : LCD) (ops : List Op) : LCD :=
  ops.foldl (step H) lcd

/-- Modelled from the spec: a concrete `lcd.h`, with `LINE_WIDTH = 40` as in the
glossary; the two flag masks, which the spec leaves open, take their HD44780
values. -/
def sampleHeader : Header where
  LINE_WIDTH := 40
  LCD_CMD_ENTRY_MODE_INCREMENT := 0x02
  LCD_CMD_SHIFT_CURSOR := 0x08

/-- A block as `malloc` may return it, here with every byte zero. -/
def zeroBlock : LCD where
  width := 0
  height := 0
  entryModeFlags := 0
  displayFlags := 0
  data := fun _ => 0
  ptr := 0
  pixels := fun _ => 0
  scrollOffset := 0
  pixelsWidth := 0
  pixelsHeight := 0
  numPixels := 0

/-- The cursor is inside DDRAM and the geometry leaves room for the stride
`width + 1`. -/
def CursorOk (H : Header) (lcd : LCD) : Prop :=
  1 ≤ lcd.height ∧ 1 ≤ lcd.width ∧ lcd.width + 1 ≤ H.LINE_WIDTH ∧
    0 ≤ lcd.ptr ∧ lcd.ptr < H.LINE_WIDTH * lcd.height

/-- The offset in the pixel buffer that `updatePixels` writes for pixel (x, y) of
the character cell (row, col): `charTopLeft + y * pixelsWidth + x`. -/
def cellOffset (lcd : LCD) (row col y x : Nat) : Int :=
  (row : Int) * (CHAR_HEIGHT + 1) * lcd.pixelsWidth + (col : Int) * (CHAR_WIDTH + 1)
    + (y : Int) * lcd.pixelsWidth + (x : Int)

/-- The value `updatePixels` writes for pixel (x, y) of the character cell
(row, col): 1 if bit `0x80 >> y` of `font[c][x]` is set and 0 otherwise, where
c is the DDRAM byte at offset `row * (width + 1) + col`. -/
def glyphPixel (lcd : LCD) (row col y x : Nat) : Int :=
  if (charBits (lcd.data ((row : Int) * (lcd.width + 1) + (col : Int)))).getD x 0
      &&& (0x80 >>> y) ≠ 0 then 1 else 0

/-- The glyph value that belongs to an offset of the pixel buffer, found by
splitting the offset into pixel row and column and these into cell and pixel. -/
def glyphAt (lcd : LCD) (p : Int) : Int :=
  glyphPixel lcd ((p / lcd.pixelsWidth) / 9).toNat ((p % lcd.pixelsWidth) / 6).toNat
    ((p / lcd.pixelsWidth) % 9).toNat ((p % lcd.pixelsWidth) % 6).toNat

/-- Whether `updatePixels` writes the offset: some pixel of some character cell
lies at it. -/
def isGlyphOffset (lcd : LCD) (p : Int) : Bool :=
  (List.range lcd.height.toNat).any fun row =>
    (List.range lcd.width.toNat).any fun col =>
      (List.range CHAR_HEIGHT.toNat).any fun y =>
        (List.range CHAR_WIDTH.toNat).any fun x =>
          decide (p = cellOffset lcd row col y x)

end Lcd

/-! # Theorems -/

namespace Microcode

/-! ## Bitwise helper lemmas -/

theorem land_lor_self (a t : Nat) : (a ||| t) &&& t = t := by
  apply Nat.eq_of_testBit_eq
  intro i
  simp only [Nat.testBit_land, Nat.testBit_lor]
  cases a.testBit i <;> cases t.testBit i <;> rfl

theorem hasTR_lor (K : Decls) (a : Nat) : hasTR K (a ||| K._TR) :=
  land_lor_self a K._TR

theorem hasTR_self (K : Decls) : hasTR K K._TR := by
  unfold hasTR; exact Nat.and_self _

theorem srcReg_lt (opcode : Nat) : Opcode.srcReg opcode < 8 :=
  Nat.mod_lt _ (by decide)

theorem destReg_lt (opcode : Nat) : Opcode.destReg opcode < 8 :=
  Nat.mod_lt _ (by decide)

/-! ## The fetch prefix -/

/-- C1: for every opcode and every flag combination, `getControlWord` returns
exactly `BW_PC | _MAW` at microtime 0 and exactly `PGM | BW_MEM | _IRW | PCC` at
microtime 1. -/
theorem fetch_prefix (K : Decls) (opcode : Nat) (c z o n : Bool) (desc : String) :
    (getControlWord K ⟨opcode, 0, c, z, o, n⟩ desc).1 = K.BW_PC ||| K._MAW ∧
    (getControlWord K ⟨opcode, 1, c, z, o, n⟩ desc).1
      = K.PGM ||| K.BW_MEM ||| K._IRW ||| K.PCC := by
  constructor
  · simp [getControlWord]
  · simp [getControlWord, READ_PROGRAM_MEMORY]

/-! ## Reaching `_TR` -/

theorem mov_tr_late (K : Decls) (opcode t : Nat) (c z o n : Bool) (desc : String)
    (ht : t = 6 ∨ t = 7)
    (h : ¬ (Opcode.destReg opcode = Register.PC ∧ Opcode.srcReg opcode = Register.PC)) :
    hasTR K (getMovControlWord K ⟨opcode, t, c, z, o, n⟩ desc).1 := by
  unfold getMovControlWord getConditionalJumpControlWord getClearAllControlWord
    getImmediateMovControlWord
  rcases ht with rfl | rfl <;>
  simp only [STEP1, STEP2, INSTRUCTION_END, Nat.reduceAdd, Nat.reduceEqDiff, if_false] <;>
  split_ifs <;> first
    | exact hasTR_lor K _
    | exact hasTR_self K
    | (exfalso; omega)

theorem lod_tr_late (K : Decls) (opcode t : Nat) (c z o n : Bool) (desc : String)
    (ht : t = 6 ∨ t = 7) :
    hasTR K (getLodControlWord K ⟨opcode, t, c, z, o, n⟩ desc).1 := by
  unfold getLodControlWord
  rcases ht with rfl | rfl <;>
  simp only [STEP1, STEP2, STEP3, STEP4, STEP5, STEP6, INSTRUCTION_END, Nat.reduceAdd,
    Nat.reduceEqDiff, if_false, if_true] <;>
  split_ifs <;> first
    | exact hasTR_lor K _
    | exact hasTR_self K

theorem sto_tr_step6 (K : Decls) (opcode : Nat) (c z o n : Bool) (desc : String) :
    hasTR K (getStoControlWord K ⟨opcode, 7, c, z, o, n⟩ desc).1 := by
  unfold getStoControlWord
  simp only [STEP1, STEP2, STEP3, STEP4, STEP5, STEP6, INSTRUCTION_END, Nat.reduceAdd,
    Nat.reduceEqDiff, if_false, if_true]
  split_ifs <;> first
    | exact hasTR_lor K _
    | exact hasTR_self K

theorem sto_tr_step5 (K : Decls) (opcode : Nat) (c z o n : Bool) (desc : String)
    (hp : ¬ (Opcode.destReg opcode = Register.StPi ∧ Opcode.srcReg opcode = Register.Imm))
    (hc : ¬ (Opcode.destReg opcode = Register.Imm ∧ Opcode.srcReg opcode = Register.PC)) :
    hasTR K (getStoControlWord K ⟨opcode, 6, c, z, o, n⟩ desc).1 := by
  unfold getStoControlWord
  simp only [STEP1, STEP2, STEP3, STEP4, STEP5, STEP6, INSTRUCTION_END, Nat.reduceAdd,
    Nat.reduceEqDiff, if_false, if_true]
  split_ifs <;> first
    | exact hasTR_lor K _
    | exact hasTR_self K
    | (exfalso; exact hp ⟨by assumption, by assumption⟩)
    | (exfalso; exact hc ⟨by assumption, by assumption⟩)

theorem alu_tr_late (K : Decls) (opcode t : Nat) (c z o n : Bool) (desc : String)
    (ht : 4 ≤ t) :
    hasTR K (getAluControlWord K ⟨opcode, t, c, z, o, n⟩ desc).1 := by
  have h2 : ¬ t = 2 := by omega
  have h3 : ¬ t = 3 := by omega
  unfold getAluControlWord aluCarryCase
  cases hm : K.aluMode opcode <;> cases hc : K.useCarry opcode <;>
    simp [STEP1, STEP2, INSTRUCTION_END, h2, h3, hasTR_self, hm, hc]

theorem group_cases (opcode : Nat) :
    Opcode.group opcode = OpcodeGroup.MOV_BITS ∨ Opcode.group opcode = OpcodeGroup.LOD_BITS ∨
    Opcode.group opcode = OpcodeGroup.STO_BITS ∨ Opcode.group opcode = OpcodeGroup.ALU_BITS := by
  unfold Opcode.group OpcodeGroup.MOV_BITS OpcodeGroup.LOD_BITS OpcodeGroup.STO_BITS
    OpcodeGroup.ALU_BITS
  omega

/-- At microtime 7 every instruction but `hlt` has `_TR` in its control word. -/
theorem tr_at_step6 (K : Decls) (opcode : Nat) (c z o n : Bool) (desc : String)
    (h : ¬ isHlt opcode) :
    hasTR K (getControlWord K ⟨opcode, 7, c, z, o, n⟩ desc).1 := by
  unfold getControlWord
  rcases group_cases opcode with hg | hg | hg | hg <;>
    simp only [hg, OpcodeGroup.MOV_BITS, OpcodeGroup.LOD_BITS, OpcodeGroup.STO_BITS,
      OpcodeGroup.ALU_BITS, Nat.reduceEqDiff, if_false, if_true]
  · exact mov_tr_late K opcode 7 c z o n desc (Or.inr rfl) (fun h2 => h ⟨hg, h2⟩)
  · exact lod_tr_late K opcode 7 c z o n desc (Or.inr rfl)
  · exact sto_tr_step6 K opcode c z o n desc
  · exact alu_tr_late K opcode 7 c z o n desc (by decide)

/-- At microtime 6 every instruction but `hlt`, `pushi` and `calli` has `_TR` in
its control word. -/
theorem tr_at_step5 (K : Decls) (opcode : Nat) (c z o n : Bool) (desc : String)
    (h : ¬ isHlt opcode) (hp : ¬ isPushi opcode) (hc : ¬ isCalli opcode) :
    hasTR K (getControlWord K ⟨opcode, 6, c, z, o, n⟩ desc).1 := by
  unfold getControlWord
  rcases group_cases opcode with hg | hg | hg | hg <;>
    simp only [hg, OpcodeGroup.MOV_BITS, OpcodeGroup.LOD_BITS, OpcodeGroup.STO_BITS,
      OpcodeGroup.ALU_BITS, Nat.reduceEqDiff, if_false, if_true]
  · exact mov_tr_late K opcode 6 c z o n desc (Or.inl rfl) (fun h2 => h ⟨hg, h2⟩)
  · exact lod_tr_late K opcode 6 c z o n desc (Or.inl rfl)
  · exact sto_tr_step5 K opcode c z o n desc (fun h2 => hp ⟨hg, h2⟩) (fun h2 => hc ⟨hg, h2⟩)
  · exact alu_tr_late K opcode 6 c z o n desc (by decide)

/-- C2 (as stated, refuted): with the sample declarations, the control word of
`hlt` (opcode 0b00_000_000) has no `_TR` at any microtime from 2 to 7. -/
theorem hlt_never_reaches_TR :
    ¬ ∃ t, 2 ≤ t ∧ t ≤ 7 ∧
      hasTR sampleDecls (getControlWord sampleDecls ⟨0, t, false, false, false, false⟩ "").1 := by
  rintro ⟨t, h2, h7, h⟩
  interval_cases t <;> revert h <;> decide

/-- C2 (amended): for every opcode other than `hlt` and every flag combination
there is a microtime t with 2 <= t <= 7 at which the control word has `_TR` set. -/
theorem reaches_TR_after_fetch (K : Decls) (opcode : Nat) (c z o n : Bool) (desc : String)
    (h : ¬ isHlt opcode) :
    ∃ t, 2 ≤ t ∧ t ≤ 7 ∧ hasTR K (getControlWord K ⟨opcode, t, c, z, o, n⟩ desc).1 :=
  ⟨7, by decide, by decide, tr_at_step6 K opcode c z o n desc h⟩

theorem reaches_TR_after_fetch_witness :
    ¬ isHlt 0b10110001 ∧
    ∃ t, 2 ≤ t ∧ t ≤ 7 ∧
      hasTR sampleDecls
        (getControlWord sampleDecls ⟨0b10110001, t, false, true, false, false⟩ "").1 :=
  ⟨by decide, reaches_TR_after_fetch sampleDecls 0b10110001 false true false false ""
    (by decide)⟩

/-- C3 (as stated, refuted): with the sample declarations, `pushi` (opcode
0b10_110_111) has no `_TR` in its control word at any microtime up to 6. -/
theorem pushi_needs_microtime_7 :
    ¬ ∃ t, t ≤ 6 ∧
      hasTR sampleDecls
        (getControlWord sampleDecls ⟨0b10110111, t, false, false, false, false⟩ "").1 := by
  rintro ⟨t, h6, h⟩
  interval_cases t <;> revert h <;> decide

/-- C3 (amended): for every opcode other than `hlt`, `pushi` and `calli` and every
flag combination some microtime t <= 6 has a control word with `_TR` set; `pushi`
and `calli` have `_TR` set at microtime 7. -/
theorem ends_within_microtime_6 (K : Decls) (opcode : Nat) (c z o n : Bool) (desc : String) :
    (¬ isHlt opcode → ¬ isPushi opcode → ¬ isCalli opcode →
      ∃ t, t ≤ 6 ∧ hasTR K (getControlWord K ⟨opcode, t, c, z, o, n⟩ desc).1) ∧
    (isPushi opcode ∨ isCalli opcode →
      hasTR K (getControlWord K ⟨opcode, 7, c, z, o, n⟩ desc).1) := by
  refine ⟨fun h hp hc => ⟨6, by decide, tr_at_step5 K opcode c z o n desc h hp hc⟩, ?_⟩
  intro h
  apply tr_at_step6
  rcases h with h | h <;>
    · simp only [isPushi, isCalli, isHlt, OpcodeGroup.STO_BITS, OpcodeGroup.MOV_BITS] at h ⊢
      omega

theorem ends_within_microtime_6_witness :
    (¬ isHlt 0b10110001 ∧ ¬ isPushi 0b10110001 ∧ ¬ isCalli 0b10110001 ∧
      ∃ t, t ≤ 6 ∧ hasTR sampleDecls
        (getControlWord sampleDecls ⟨0b10110001, t, false, false, false, false⟩ "").1) ∧
    (isCalli 0b10111000 ∧ hasTR sampleDecls
        (getControlWord sampleDecls ⟨0b10111000, 7, false, false, false, false⟩ "").1) :=
  ⟨⟨by decide, by decide, by decide,
    (ends_within_microtime_6 sampleDecls 0b10110001 false false false false "").1
      (by decide) (by decide) (by decide)⟩,
   ⟨by decide,
    (ends_within_microtime_6 sampleDecls 0b10111000 false false false false "").2
      (Or.inr (by decide))⟩⟩

/-! ## One bus driver per microstep -/

theorem not_atMostOneBit_three : ¬ atMostOneBit 3 := by
  rintro (h | ⟨k, hk⟩)
  · omega
  · match k, hk with
    | 0, hk => omega
    | 1, hk => omega
    | k + 2, hk =>
      have h4 : 2 ^ (k + 2) = 4 * 2 ^ k := by ring
      omega

/-- C4 (as stated, refuted): in the layout `codedDecls`, whose bus-source field
is the 3-bit register code of the spec, the word of `mov Ra, Rc` (opcode
`0b00_001_011`) at microtime 2 holds the code 3 of Rc in the bus-source field
`0b111`: one bus driver, but two bits set. -/
theorem bus_field_holds_register_code :
    (getControlWord codedDecls ⟨0b00001011, 2, false, false, false, false⟩ "").1 &&& 0b111 = 3 ∧
    ¬ atMostOneBit
      ((getControlWord codedDecls ⟨0b00001011, 2, false, false, false, false⟩ "").1
        &&& 0b111) := by
  have h : (getControlWord codedDecls ⟨0b00001011, 2, false, false, false, false⟩ "").1
      &&& 0b111 = 3 := by decide
  exact ⟨h, by rw [h]; exact not_atMostOneBit_three⟩

section BusSources

set_option maxHeartbeats 1600000

theorem orSignals_append (K : Decls) (l1 l2 : List OtherSignal) :
    orSignals K (l1 ++ l2) = orSignals K l1 ||| orSignals K l2 := by
  induction l1 with
  | nil => simp [orSignals]
  | cons s l ih =>
    simp only [orSignals, List.cons_append, List.foldr_cons] at ih ⊢
    rw [ih, Nat.lor_assoc]

theorem NoBusSource.zero (K : Decls) : NoBusSource K 0 := ⟨[], rfl⟩

theorem NoBusSource.signal (K : Decls) (s : OtherSignal) :
    NoBusSource K (OtherSignal.mask K s) := ⟨[s], by simp [orSignals]⟩

theorem NoBusSource.lor {K : Decls} {a b : Nat} (ha : NoBusSource K a)
    (hb : NoBusSource K b) : NoBusSource K (a ||| b) := by
  obtain ⟨l1, rfl⟩ := ha
  obtain ⟨l2, rfl⟩ := hb
  exact ⟨l1 ++ l2, (orSignals_append K l1 l2).symm⟩

theorem AtMostOneBusSource.source (K : Decls) (s : BusSource) :
    AtMostOneBusSource K (BusSource.mask K s) :=
  ⟨some s, [], by simp [sourceMask, orSignals]⟩

theorem AtMostOneBusSource.none {K : Decls} {w : Nat} (h : NoBusSource K w) :
    AtMostOneBusSource K w := by
  obtain ⟨l, rfl⟩ := h
  exact ⟨Option.none, l, by simp [sourceMask]⟩

theorem AtMostOneBusSource.lor_left {K : Decls} {a b : Nat} (ha : AtMostOneBusSource K a)
    (hb : NoBusSource K b) : AtMostOneBusSource K (a ||| b) := by
  obtain ⟨s, l1, rfl⟩ := ha
  obtain ⟨l2, rfl⟩ := hb
  exact ⟨s, l1 ++ l2, by rw [orSignals_append, Nat.lor_assoc]⟩

theorem AtMostOneBusSource.lor_right {K : Decls} {a b : Nat} (ha : NoBusSource K a)
    (hb : AtMostOneBusSource K b) : AtMostOneBusSource K (a ||| b) := by
  rw [Nat.lor_comm]
  exact AtMostOneBusSource.lor_left hb ha

theorem mov_one_bus_source (K : Decls) (address : EepromAddress) (desc : String) :
    AtMostOneBusSource K (getMovControlWord K address desc).1 := by
  unfold getMovControlWord getConditionalJumpControlWord getClearAllControlWord
    getImmediateMovControlWord
  dsimp only
  split_ifs <;>
    (try simp only [INSTRUCTION_END, SET_MAW_FROM_PC, READ_PROGRAM_MEMORY]) <;>
    repeat
      first
        | exact AtMostOneBusSource.source K (BusSource.write _)
        | exact AtMostOneBusSource.source K BusSource.BW_PC
        | exact AtMostOneBusSource.source K BusSource.BW_MEM
        | exact AtMostOneBusSource.source K BusSource.BW_ALU
        | (apply AtMostOneBusSource.none; solve | (repeat (first
            | exact NoBusSource.zero K
            | exact NoBusSource.signal K (OtherSignal.read _)
            | exact NoBusSource.signal K (OtherSignal.mode _)
            | exact NoBusSource.signal K OtherSignal.PGM
            | exact NoBusSource.signal K OtherSignal._MAW
            | exact NoBusSource.signal K OtherSignal._MW
            | exact NoBusSource.signal K OtherSignal._IRW
            | exact NoBusSource.signal K OtherSignal._ALW
            | exact NoBusSource.signal K OtherSignal._StPW
            | exact NoBusSource.signal K OtherSignal.PCC
            | exact NoBusSource.signal K OtherSignal.ALC
            | exact NoBusSource.signal K OtherSignal.ALB
            | exact NoBusSource.signal K OtherSignal.ALU_A_AND_B
            | exact NoBusSource.signal K OtherSignal.ALU_A_PLUS_B
            | exact NoBusSource.signal K OtherSignal.ALU_A_MINUS_B
            | exact NoBusSource.signal K OtherSignal.LCD
            | exact NoBusSource.signal K OtherSignal.LCD_COMMAND
            | exact NoBusSource.signal K OtherSignal.LCD_DATA
            | exact NoBusSource.signal K OtherSignal.HLT
            | exact NoBusSource.signal K OtherSignal._TR
            | apply NoBusSource.lor)))
        | (refine AtMostOneBusSource.lor_left ?_ ?_ <;> [skip; (solve | (repeat (first
            | exact NoBusSource.zero K
            | exact NoBusSource.signal K (OtherSignal.read _)
            | exact NoBusSource.signal K (OtherSignal.mode _)
            | exact NoBusSource.signal K OtherSignal.PGM
            | exact NoBusSource.signal K OtherSignal._MAW
            | exact NoBusSource.signal K OtherSignal._MW
            | exact NoBusSource.signal K OtherSignal._IRW
            | exact NoBusSource.signal K OtherSignal._ALW
            | exact NoBusSource.signal K OtherSignal._StPW
            | exact NoBusSource.signal K OtherSignal.PCC
            | exact NoBusSource.signal K OtherSignal.ALC
            | exact NoBusSource.signal K OtherSignal.ALB
            | exact NoBusSource.signal K OtherSignal.ALU_A_AND_B
            | exact NoBusSource.signal K OtherSignal.ALU_A_PLUS_B
            | exact NoBusSource.signal K OtherSignal.ALU_A_MINUS_B
            | exact NoBusSource.signal K OtherSignal.LCD
            | exact NoBusSource.signal K OtherSignal.LCD_COMMAND
            | exact NoBusSource.signal K OtherSignal.LCD_DATA
            | exact NoBusSource.signal K OtherSignal.HLT
            | exact NoBusSource.signal K OtherSignal._TR
            | apply NoBusSource.lor)))])
        | (refine AtMostOneBusSource.lor_right ?_ ?_ <;> [(solve | (repeat (first
            | exact NoBusSource.zero K
            | exact NoBusSource.signal K (OtherSignal.read _)
            | exact NoBusSource.signal K (OtherSignal.mode _)
            | exact NoBusSource.signal K OtherSignal.PGM
            | exact NoBusSource.signal K OtherSignal._MAW
            | exact NoBusSource.signal K OtherSignal._MW
            | exact NoBusSource.signal K OtherSignal._IRW
            | exact NoBusSource.signal K OtherSignal._ALW
            | exact NoBusSource.signal K OtherSignal._StPW
            | exact NoBusSource.signal K OtherSignal.PCC
            | exact NoBusSource.signal K OtherSignal.ALC
            | exact NoBusSource.signal K OtherSignal.ALB
            | exact NoBusSource.signal K OtherSignal.ALU_A_AND_B
            | exact NoBusSource.signal K OtherSignal.ALU_A_PLUS_B
            | exact NoBusSource.signal K OtherSignal.ALU_A_MINUS_B
            | exact NoBusSource.signal K OtherSignal.LCD
            | exact NoBusSource.signal K OtherSignal.LCD_COMMAND
            | exact NoBusSource.signal K OtherSignal.LCD_DATA
            | exact NoBusSource.signal K OtherSignal.HLT
            | exact NoBusSource.signal K OtherSignal._TR
            | apply NoBusSource.lor))); skip])

theorem lod_one_bus_source (K : Decls) (address : EepromAddress) (desc : String) :
    AtMostOneBusSource K (getLodControlWord K address desc).1 := by
  have hd := destReg_lt address.opcode
  have hs := srcReg_lt address.opcode
  unfold getLodControlWord
  dsimp only
  generalize Opcode.destReg address.opcode = d at hd ⊢
  generalize Opcode.srcReg address.opcode = s at hs ⊢
  interval_cases d <;> interval_cases s <;>
    simp only [Register.StPi, Register.StP, Register.PC, Register.Imm, Register.Rc,
      Nat.reduceEqDiff, Nat.reduceLT, if_true, if_false, ne_eq, not_true_eq_false,
      not_false_eq_true, Nat.lt_irrefl] <;>
    split_ifs <;>
    (try simp only [INSTRUCTION_END, SET_MAW_FROM_PC, READ_PROGRAM_MEMORY]) <;>
    repeat
      first
        | exact AtMostOneBusSource.source K (BusSource.write _)
        | exact AtMostOneBusSource.source K BusSource.BW_PC
        | exact AtMostOneBusSource.source K BusSource.BW_MEM
        | exact AtMostOneBusSource.source K BusSource.BW_ALU
        | (apply AtMostOneBusSource.none; solve | (repeat (first
            | exact NoBusSource.zero K
            | exact NoBusSource.signal K (OtherSignal.read _)
            | exact NoBusSource.signal K (OtherSignal.mode _)
            | exact NoBusSource.signal K OtherSignal.PGM
            | exact NoBusSource.signal K OtherSignal._MAW
            | exact NoBusSource.signal K OtherSignal._MW
            | exact NoBusSource.signal K OtherSignal._IRW
            | exact NoBusSource.signal K OtherSignal._ALW
            | exact NoBusSource.signal K OtherSignal._StPW
            | exact NoBusSource.signal K OtherSignal.PCC
            | exact NoBusSource.signal K OtherSignal.ALC
            | exact NoBusSource.signal K OtherSignal.ALB
            | exact NoBusSource.signal K OtherSignal.ALU_A_AND_B
            | exact NoBusSource.signal K OtherSignal.ALU_A_PLUS_B
            | exact NoBusSource.signal K OtherSignal.ALU_A_MINUS_B
            | exact NoBusSource.signal K OtherSignal.LCD
            | exact NoBusSource.signal K OtherSignal.LCD_COMMAND
            | exact NoBusSource.signal K OtherSignal.LCD_DATA
            | exact NoBusSource.signal K OtherSignal.HLT
            | exact NoBusSource.signal K OtherSignal._TR
            | apply NoBusSource.lor)))
        | (refine AtMostOneBusSource.lor_left ?_ ?_ <;> [skip; (solve | (repeat (first
            | exact NoBusSource.zero K
            | exact NoBusSource.signal K (OtherSignal.read _)
            | exact NoBusSource.signal K (OtherSignal.mode _)
            | exact NoBusSource.signal K OtherSignal.PGM
            | exact NoBusSource.signal K OtherSignal._MAW
            | exact NoBusSource.signal K OtherSignal._MW
            | exact NoBusSource.signal K OtherSignal._IRW
            | exact NoBusSource.signal K OtherSignal._ALW
            | exact NoBusSource.signal K OtherSignal._StPW
            | exact NoBusSource.signal K OtherSignal.PCC
            | exact NoBusSource.signal K OtherSignal.ALC
            | exact NoBusSource.signal K OtherSignal.ALB
            | exact NoBusSource.signal K OtherSignal.ALU_A_AND_B
            | exact NoBusSource.signal K OtherSignal.ALU_A_PLUS_B
            | exact NoBusSource.signal K OtherSignal.ALU_A_MINUS_B
            | exact NoBusSource.signal K OtherSignal.LCD
            | exact NoBusSource.signal K OtherSignal.LCD_COMMAND
            | exact NoBusSource.signal K OtherSignal.LCD_DATA
            | exact NoBusSource.signal K OtherSignal.HLT
            | exact NoBusSource.signal K OtherSignal._TR
            | apply NoBusSource.lor)))])
        | (refine AtMostOneBusSource.lor_right ?_ ?_ <;> [(solve | (repeat (first
            | exact NoBusSource.zero K
            | exact NoBusSource.signal K (OtherSignal.read _)
            | exact NoBusSource.signal K (OtherSignal.mode _)
            | exact NoBusSource.signal K OtherSignal.PGM
            | exact NoBusSource.signal K OtherSignal._MAW
            | exact NoBusSource.signal K OtherSignal._MW
            | exact NoBusSource.signal K OtherSignal._IRW
            | exact NoBusSource.signal K OtherSignal._ALW
            | exact NoBusSource.signal K OtherSignal._StPW
            | exact NoBusSource.signal K OtherSignal.PCC
            | exact NoBusSource.signal K OtherSignal.ALC
            | exact NoBusSource.signal K OtherSignal.ALB
            | exact NoBusSource.signal K OtherSignal.ALU_A_AND_B
            | exact NoBusSource.signal K OtherSignal.ALU_A_PLUS_B
            | exact NoBusSource.signal K OtherSignal.ALU_A_MINUS_B
            | exact NoBusSource.signal K OtherSignal.LCD
            | exact NoBusSource.signal K OtherSignal.LCD_COMMAND
            | exact NoBusSource.signal K OtherSignal.LCD_DATA
            | exact NoBusSource.signal K OtherSignal.HLT
            | exact NoBusSource.signal K OtherSignal._TR
            | apply NoBusSource.lor))); skip])

theorem sto_one_bus_source (K : Decls) (address : EepromAddress) (desc : String) :
    AtMostOneBusSource K (getStoControlWord K address desc).1 := by
  have hd := destReg_lt address.opcode
  have hs := srcReg_lt address.opcode
  unfold getStoControlWord
  dsimp only
  generalize Opcode.destReg address.opcode = d at hd ⊢
  generalize Opcode.srcReg address.opcode = s at hs ⊢
  interval_cases d <;> interval_cases s <;>
    simp only [Register.StPi, Register.StP, Register.PC, Register.Imm, Register.Rc,
      Nat.reduceEqDiff, Nat.reduceLT, if_true, if_false, ne_eq, not_true_eq_false,
      not_false_eq_true, Nat.lt_irrefl] <;>
    split_ifs <;>
    (try simp only [INSTRUCTION_END, SET_MAW_FROM_PC, READ_PROGRAM_MEMORY]) <;>
    repeat
      first
        | exact AtMostOneBusSource.source K (BusSource.write _)
        | exact AtMostOneBusSource.source K BusSource.BW_PC
        | exact AtMostOneBusSource.source K BusSource.BW_MEM
        | exact AtMostOneBusSource.source K BusSource.BW_ALU
        | (apply AtMostOneBusSource.none; solve | (repeat (first
            | exact NoBusSource.zero K
            | exact NoBusSource.signal K (OtherSignal.read _)
            | exact NoBusSource.signal K (OtherSignal.mode _)
            | exact NoBusSource.signal K OtherSignal.PGM
            | exact NoBusSource.signal K OtherSignal._MAW
            | exact NoBusSource.signal K OtherSignal._MW
            | exact NoBusSource.signal K OtherSignal._IRW
            | exact NoBusSource.signal K OtherSignal._ALW
            | exact NoBusSource.signal K OtherSignal._StPW
            | exact NoBusSource.signal K OtherSignal.PCC
            | exact NoBusSource.signal K OtherSignal.ALC
            | exact NoBusSource.signal K OtherSignal.ALB
            | exact NoBusSource.signal K OtherSignal.ALU_A_AND_B
            | exact NoBusSource.signal K OtherSignal.ALU_A_PLUS_B
            | exact NoBusSource.signal K OtherSignal.ALU_A_MINUS_B
            | exact NoBusSource.signal K OtherSignal.LCD
            | exact NoBusSource.signal K OtherSignal.LCD_COMMAND
            | exact NoBusSource.signal K OtherSignal.LCD_DATA
            | exact NoBusSource.signal K OtherSignal.HLT
            | exact NoBusSource.signal K OtherSignal._TR
            | apply NoBusSource.lor)))
        | (refine AtMostOneBusSource.lor_left ?_ ?_ <;> [skip; (solve | (repeat (first
            | exact NoBusSource.zero K
            | exact NoBusSource.signal K (OtherSignal.read _)
            | exact NoBusSource.signal K (OtherSignal.mode _)
            | exact NoBusSource.signal K OtherSignal.PGM
            | exact NoBusSource.signal K OtherSignal._MAW
            | exact NoBusSource.signal K OtherSignal._MW
            | exact NoBusSource.signal K OtherSignal._IRW
            | exact NoBusSource.signal K OtherSignal._ALW
            | exact NoBusSource.signal K OtherSignal._StPW
            | exact NoBusSource.signal K OtherSignal.PCC
            | exact NoBusSource.signal K OtherSignal.ALC
            | exact NoBusSource.signal K OtherSignal.ALB
            | exact NoBusSource.signal K OtherSignal.ALU_A_AND_B
            | exact NoBusSource.signal K OtherSignal.ALU_A_PLUS_B
            | exact NoBusSource.signal K OtherSignal.ALU_A_MINUS_B
            | exact NoBusSource.signal K OtherSignal.LCD
            | exact NoBusSource.signal K OtherSignal.LCD_COMMAND
            | exact NoBusSource.signal K OtherSignal.LCD_DATA
            | exact NoBusSource.signal K OtherSignal.HLT
            | exact NoBusSource.signal K OtherSignal._TR
            | apply NoBusSource.lor)))])
        | (refine AtMostOneBusSource.lor_right ?_ ?_ <;> [(solve | (repeat (first
            | exact NoBusSource.zero K
            | exact NoBusSource.signal K (OtherSignal.read _)
            | exact NoBusSource.signal K (OtherSignal.mode _)
            | exact NoBusSource.signal K OtherSignal.PGM
            | exact NoBusSource.signal K OtherSignal._MAW
            | exact NoBusSource.signal K OtherSignal._MW
            | exact NoBusSource.signal K OtherSignal._IRW
            | exact NoBusSource.signal K OtherSignal._ALW
            | exact NoBusSource.signal K OtherSignal._StPW
            | exact NoBusSource.signal K OtherSignal.PCC
            | exact NoBusSource.signal K OtherSignal.ALC
            | exact NoBusSource.signal K OtherSignal.ALB
            | exact NoBusSource.signal K OtherSignal.ALU_A_AND_B
            | exact NoBusSource.signal K OtherSignal.ALU_A_PLUS_B
            | exact NoBusSource.signal K OtherSignal.ALU_A_MINUS_B
            | exact NoBusSource.signal K OtherSignal.LCD
            | exact NoBusSource.signal K OtherSignal.LCD_COMMAND
            | exact NoBusSource.signal K OtherSignal.LCD_DATA
            | exact NoBusSource.signal K OtherSignal.HLT
            | exact NoBusSource.signal K OtherSignal._TR
            | apply NoBusSource.lor))); skip])

theorem alu_one_bus_source (K : Decls) (address : EepromAddress) (desc : String) :
    AtMostOneBusSource K (getAluControlWord K address desc).1 := by
  unfold getAluControlWord aluCarryCase
  cases hm : K.aluMode address.opcode <;> cases hc : K.useCarry address.opcode <;>
    simp only [hm, hc, INSTRUCTION_END, if_true, if_false, reduceCtorEq, or_self, or_false,
      or_true, false_or, Bool.false_and, Bool.true_and, Bool.false_eq_true] <;>
    split_ifs <;>
    repeat
      first
        | exact AtMostOneBusSource.source K (BusSource.write _)
        | exact AtMostOneBusSource.source K BusSource.BW_PC
        | exact AtMostOneBusSource.source K BusSource.BW_MEM
        | exact AtMostOneBusSource.source K BusSource.BW_ALU
        | (apply AtMostOneBusSource.none; solve | (repeat (first
            | exact NoBusSource.zero K
            | exact NoBusSource.signal K (OtherSignal.read _)
            | exact NoBusSource.signal K (OtherSignal.mode _)
            | exact NoBusSource.signal K OtherSignal.PGM
            | exact NoBusSource.signal K OtherSignal._MAW
            | exact NoBusSource.signal K OtherSignal._MW
            | exact NoBusSource.signal K OtherSignal._IRW
            | exact NoBusSource.signal K OtherSignal._ALW
            | exact NoBusSource.signal K OtherSignal._StPW
            | exact NoBusSource.signal K OtherSignal.PCC
            | exact NoBusSource.signal K OtherSignal.ALC
            | exact NoBusSource.signal K OtherSignal.ALB
            | exact NoBusSource.signal K OtherSignal.ALU_A_AND_B
            | exact NoBusSource.signal K OtherSignal.ALU_A_PLUS_B
            | exact NoBusSource.signal K OtherSignal.ALU_A_MINUS_B
            | exact NoBusSource.signal K OtherSignal.LCD
            | exact NoBusSource.signal K OtherSignal.LCD_COMMAND
            | exact NoBusSource.signal K OtherSignal.LCD_DATA
            | exact NoBusSource.signal K OtherSignal.HLT
            | exact NoBusSource.signal K OtherSignal._TR
            | apply NoBusSource.lor)))
        | (refine AtMostOneBusSource.lor_left ?_ ?_ <;> [skip; (solve | (repeat (first
            | exact NoBusSource.zero K
            | exact NoBusSource.signal K (OtherSignal.read _)
            | exact NoBusSource.signal K (OtherSignal.mode _)
            | exact NoBusSource.signal K OtherSignal.PGM
            | exact NoBusSource.signal K OtherSignal._MAW
            | exact NoBusSource.signal K OtherSignal._MW
            | exact NoBusSource.signal K OtherSignal._IRW
            | exact NoBusSource.signal K OtherSignal._ALW
            | exact NoBusSource.signal K OtherSignal._StPW
            | exact NoBusSource.signal K OtherSignal.PCC
            | exact NoBusSource.signal K OtherSignal.ALC
            | exact NoBusSource.signal K OtherSignal.ALB
            | exact NoBusSource.signal K OtherSignal.ALU_A_AND_B
            | exact NoBusSource.signal K OtherSignal.ALU_A_PLUS_B
            | exact NoBusSource.signal K OtherSignal.ALU_A_MINUS_B
            | exact NoBusSource.signal K OtherSignal.LCD
            | exact NoBusSource.signal K OtherSignal.LCD_COMMAND
            | exact NoBusSource.signal K OtherSignal.LCD_DATA
            | exact NoBusSource.signal K OtherSignal.HLT
            | exact NoBusSource.signal K OtherSignal._TR
            | apply NoBusSource.lor)))])
        | (refine AtMostOneBusSource.lor_right ?_ ?_ <;> [(solve | (repeat (first
            | exact NoBusSource.zero K
            | exact NoBusSource.signal K (OtherSignal.read _)
            | exact NoBusSource.signal K (OtherSignal.mode _)
            | exact NoBusSource.signal K OtherSignal.PGM
            | exact NoBusSource.signal K OtherSignal._MAW
            | exact NoBusSource.signal K OtherSignal._MW
            | exact NoBusSource.signal K OtherSignal._IRW
            | exact NoBusSource.signal K OtherSignal._ALW
            | exact NoBusSource.signal K OtherSignal._StPW
            | exact NoBusSource.signal K OtherSignal.PCC
            | exact NoBusSource.signal K OtherSignal.ALC
            | exact NoBusSource.signal K OtherSignal.ALB
            | exact NoBusSource.signal K OtherSignal.ALU_A_AND_B
            | exact NoBusSource.signal K OtherSignal.ALU_A_PLUS_B
            | exact NoBusSource.signal K OtherSignal.ALU_A_MINUS_B
            | exact NoBusSource.signal K OtherSignal.LCD
            | exact NoBusSource.signal K OtherSignal.LCD_COMMAND
            | exact NoBusSource.signal K OtherSignal.LCD_DATA
            | exact NoBusSource.signal K OtherSignal.HLT
            | exact NoBusSource.signal K OtherSignal._TR
            | apply NoBusSource.lor))); skip])

/-- C4 (amended): for every opcode, microtime and flag combination, and for every
layout of the signals, the control word returned by `getControlWord` is the
bitwise OR of at most one bus-write source (the bus-write mask of one register,
`BW_PC`, `BW_MEM` or `BW_ALU`) and of signals that are not bus-write sources: no
control word combines two bus drivers. -/
theorem one_bus_source (K : Decls) (address : EepromAddress) (desc : String) :
    ∃ (source : Option BusSource) (others : List OtherSignal),
      (getControlWord K address desc).1 = sourceMask K source ||| orSignals K others := by
  unfold getControlWord
  dsimp only
  split_ifs
  · exact AtMostOneBusSource.lor_left (AtMostOneBusSource.source K BusSource.BW_PC)
      (NoBusSource.signal K OtherSignal._MAW)
  · exact AtMostOneBusSource.lor_left
      (AtMostOneBusSource.lor_left
        (AtMostOneBusSource.lor_right (NoBusSource.signal K OtherSignal.PGM)
          (AtMostOneBusSource.source K BusSource.BW_MEM))
        (NoBusSource.signal K OtherSignal._IRW))
      (NoBusSource.signal K OtherSignal.PCC)
  · exact mov_one_bus_source K address desc
  · exact lod_one_bus_source K address desc
  · exact sto_one_bus_source K address desc
  · exact alu_one_bus_source K address desc
  · exact AtMostOneBusSource.none (NoBusSource.zero K)

end BusSources

/-! ## Individual instructions -/

theorem notCarry_eq : NotCarry = 0b111 := by decide

theorem notZero_eq : NotZero = 0b110 := by decide

theorem notOflow_eq : NotOflow = 0b101 := by decide

theorem notNeg_eq : NotNeg = 0b011 := by decide

/-- C5: for every MOV-group opcode with dest = 0b111 and every flag combination
the jump is taken iff the flag selected by src holds; when taken the control word
is `BW_PC | _MAW` at microtime 2 and `PGM | BW_MEM | PC.read_from_bus | _TR` at
microtime 3, when not taken it is exactly `PCC` at microtime 2 and exactly `_TR`
at microtime 3; the description is jc/jz/jo/jn/jnc/jnz/jno/jnn.  `BW_PC` is the
bus-write mask of PC. -/
theorem conditional_jump (K : Decls) (opcode : Nat) (c z o n : Bool) (desc : String)
    (hPC : K.writeToBus Register.PC = K.BW_PC)
    (hg : Opcode.group opcode = OpcodeGroup.MOV_BITS)
    (hd : Opcode.destReg opcode = 0b111) :
    getControlWord K ⟨opcode, 2, c, z, o, n⟩ desc =
      (if specJumpTaken (Opcode.srcReg opcode) c z o n then K.BW_PC ||| K._MAW else K.PCC,
        specJumpName (Opcode.srcReg opcode)) ∧
    getControlWord K ⟨opcode, 3, c, z, o, n⟩ desc =
      (if specJumpTaken (Opcode.srcReg opcode) c z o n then
          K.PGM ||| K.BW_MEM ||| K.readFromBus Register.PC ||| K._TR
        else K._TR,
        specJumpName (Opcode.srcReg opcode)) := by
  have hs := srcReg_lt opcode
  unfold getControlWord getMovControlWord getConditionalJumpControlWord jumpSelect
  simp only [hg, hd, Register.Imm, OpcodeGroup.MOV_BITS, SET_MAW_FROM_PC, hPC,
    READ_PROGRAM_MEMORY, INSTRUCTION_END]
  generalize Opcode.srcReg opcode = s at hs ⊢
  interval_cases s <;> cases c <;> cases z <;> cases o <;> cases n <;>
    simp [specJumpTaken, specJumpName, Carry, Zero, Oflow, Neg, notCarry_eq, notZero_eq,
      notOflow_eq, notNeg_eq, STEP1, STEP2]

theorem conditional_jump_witness :
    getControlWord sampleDecls ⟨0b00111001, 2, false, true, false, false⟩ "" =
      (if specJumpTaken (Opcode.srcReg 0b00111001) false true false false then
          sampleDecls.BW_PC ||| sampleDecls._MAW
        else sampleDecls.PCC,
        specJumpName (Opcode.srcReg 0b00111001)) ∧
    getControlWord sampleDecls ⟨0b00111001, 3, false, true, false, false⟩ "" =
      (if specJumpTaken (Opcode.srcReg 0b00111001) false true false false then
          sampleDecls.PGM ||| sampleDecls.BW_MEM ||| sampleDecls.readFromBus Register.PC
            ||| sampleDecls._TR
        else sampleDecls._TR,
        specJumpName (Opcode.srcReg 0b00111001)) :=
  conditional_jump sampleDecls 0b00111001 false true false false "" (by decide) (by decide)
    (by decide)

/-- C6: for every MOV-group opcode with src = 0b111 (Imm) and dest in {PC, Ra, Rb,
Rc, Rd, StP}, for all flags, the control word at microtime 2 is `BW_PC | _MAW` and
at microtime 3 is `PGM | BW_MEM | dest.read_from_bus | _TR`, with `PCC`
additionally OR-ed in iff dest is not PC; for dest = PC the description is
"jmpi Imm".  `BW_PC` is the bus-write mask of PC. -/
theorem movi_jmpi (K : Decls) (opcode : Nat) (c z o n : Bool) (desc : String)
    (hPC : K.writeToBus Register.PC = K.BW_PC)
    (hg : Opcode.group opcode = OpcodeGroup.MOV_BITS)
    (hs : Opcode.srcReg opcode = 0b111)
    (hd : Opcode.destReg opcode ≤ 5) :
    (getControlWord K ⟨opcode, 2, c, z, o, n⟩ desc).1 = K.BW_PC ||| K._MAW ∧
    (getControlWord K ⟨opcode, 3, c, z, o, n⟩ desc).1 =
      (if Opcode.destReg opcode = Register.PC then
          K.PGM ||| K.BW_MEM ||| K.readFromBus (Opcode.destReg opcode) ||| K._TR
        else
          K.PCC ||| K.PGM ||| K.BW_MEM ||| K.readFromBus (Opcode.destReg opcode) ||| K._TR) ∧
    (Opcode.destReg opcode = Register.PC →
      (getControlWord K ⟨opcode, 2, c, z, o, n⟩ desc).2 = "jmpi Imm" ∧
      (getControlWord K ⟨opcode, 3, c, z, o, n⟩ desc).2 = "jmpi Imm") := by
  have hPC0 : K.writeToBus 0 = K.BW_PC := hPC
  unfold getControlWord getMovControlWord getImmediateMovControlWord
  simp only [hg, hs, Register.Imm, Register.Acc, Register.PC, OpcodeGroup.MOV_BITS,
    SET_MAW_FROM_PC, hPC0, READ_PROGRAM_MEMORY, INSTRUCTION_END]
  generalize Opcode.destReg opcode = d at hd ⊢
  interval_cases d <;> simp [STEP1, STEP2, Nat.lor_assoc]

theorem movi_jmpi_witness :
    (getControlWord sampleDecls ⟨0b00000111, 2, false, false, false, false⟩ "").1 =
      sampleDecls.BW_PC ||| sampleDecls._MAW ∧
    (getControlWord sampleDecls ⟨0b00000111, 3, false, false, false, false⟩ "").1 =
      (if Opcode.destReg 0b00000111 = Register.PC then
          sampleDecls.PGM ||| sampleDecls.BW_MEM |||
            sampleDecls.readFromBus (Opcode.destReg 0b00000111) ||| sampleDecls._TR
        else
          sampleDecls.PCC ||| sampleDecls.PGM ||| sampleDecls.BW_MEM |||
            sampleDecls.readFromBus (Opcode.destReg 0b00000111) ||| sampleDecls._TR) ∧
    (Opcode.destReg 0b00000111 = Register.PC →
      (getControlWord sampleDecls ⟨0b00000111, 2, false, false, false, false⟩ "").2
        = "jmpi Imm" ∧
      (getControlWord sampleDecls ⟨0b00000111, 3, false, false, false, false⟩ "").2
        = "jmpi Imm") :=
  movi_jmpi sampleDecls 0b00000111 false false false false "" (by decide) (by decide)
    (by decide) (by decide)

/-- C7: for every STO-group opcode with dest = StPi (0b110) and src in {Ra, Rb, Rc,
Rd, StP, StPi}, for all flags, the control words are
`StP.write_to_bus | _ALW | ALU_A_MINUS_B` at microtime 2, `_StPW | BW_ALU | _MAW`
at microtime 3 and `src.write_to_bus | _MW | _TR` at microtime 4. -/
theorem push_sequence (K : Decls) (opcode : Nat) (c z o n : Bool) (desc : String)
    (hg : Opcode.group opcode = OpcodeGroup.STO_BITS)
    (hd : Opcode.destReg opcode = 0b110)
    (hs : 1 ≤ Opcode.srcReg opcode ∧ Opcode.srcReg opcode ≤ 6) :
    (getControlWord K ⟨opcode, 2, c, z, o, n⟩ desc).1 =
      K.writeToBus Register.StP ||| K._ALW ||| K.ALU_A_MINUS_B ∧
    (getControlWord K ⟨opcode, 3, c, z, o, n⟩ desc).1 = K._StPW ||| K.BW_ALU ||| K._MAW ∧
    (getControlWord K ⟨opcode, 4, c, z, o, n⟩ desc).1 =
      K.writeToBus (Opcode.srcReg opcode) ||| K._MW ||| K._TR := by
  obtain ⟨hs1, hs6⟩ := hs
  unfold getControlWord getStoControlWord
  simp only [hg, hd, Register.Imm, Register.StPi, Register.PC, OpcodeGroup.STO_BITS,
    OpcodeGroup.MOV_BITS, OpcodeGroup.LOD_BITS, INSTRUCTION_END]
  generalize Opcode.srcReg opcode = s at hs1 hs6 ⊢
  interval_cases s <;> simp [STEP1, STEP2, STEP3]

theorem push_sequence_witness :
    (getControlWord sampleDecls ⟨0b10110001, 2, false, false, false, false⟩ "").1 =
      sampleDecls.writeToBus Register.StP ||| sampleDecls._ALW ||| sampleDecls.ALU_A_MINUS_B ∧
    (getControlWord sampleDecls ⟨0b10110001, 3, false, false, false, false⟩ "").1 =
      sampleDecls._StPW ||| sampleDecls.BW_ALU ||| sampleDecls._MAW ∧
    (getControlWord sampleDecls ⟨0b10110001, 4, false, false, false, false⟩ "").1 =
      sampleDecls.writeToBus (Opcode.srcReg 0b10110001) ||| sampleDecls._MW |||
        sampleDecls._TR :=
  push_sequence sampleDecls 0b10110001 false false false false "" (by decide) (by decide)
    (by decide)

/-- C8: for every ALU-group address whose decoded mode is INC_A, with target
register reg and for all flags, the control word at microtime 2 is
`reg.write_to_bus | ALU_A_PLUS_B | ALC | _ALW` when use_carry is 0 (description
"inc <reg>") and `reg.write_to_bus | ALU_A_MINUS_B | _ALW` when use_carry is 1
(description "dec <reg>"); at microtime 3 it is
`reg.read_from_bus | Acc.write_to_bus | _TR`. -/
theorem inc_dec (K : Decls) (opcode : Nat) (c z o n : Bool) (desc : String)
    (hg : Opcode.group opcode = OpcodeGroup.ALU_BITS)
    (hm : K.aluMode opcode = AluMode.INC_A) :
    getControlWord K ⟨opcode, 2, c, z, o, n⟩ desc =
      (if K.useCarry opcode then
          (K.writeToBus (K.aluReg opcode) ||| K.ALU_A_MINUS_B ||| K._ALW,
            "dec " ++ K.regName (K.aluReg opcode))
        else
          (K.writeToBus (K.aluReg opcode) ||| K.ALU_A_PLUS_B ||| K.ALC ||| K._ALW,
            "inc " ++ K.regName (K.aluReg opcode))) ∧
    getControlWord K ⟨opcode, 3, c, z, o, n⟩ desc =
      (K.readFromBus (K.aluReg opcode) ||| K.writeToBus Register.Acc ||| K._TR,
        (if K.useCarry opcode then "dec " else "inc ") ++ K.regName (K.aluReg opcode)) := by
  unfold getControlWord getAluControlWord
  cases hc : K.useCarry opcode <;>
    simp [hg, hm, hc, OpcodeGroup.ALU_BITS, OpcodeGroup.MOV_BITS, OpcodeGroup.LOD_BITS,
      OpcodeGroup.STO_BITS, INSTRUCTION_END, STEP1, STEP2, Nat.lor_assoc]

theorem inc_dec_witness :
    getControlWord sampleDecls ⟨0b11000010, 2, false, false, false, false⟩ "" =
      (if sampleDecls.useCarry 0b11000010 then
          (sampleDecls.writeToBus (sampleDecls.aluReg 0b11000010) |||
            sampleDecls.ALU_A_MINUS_B ||| sampleDecls._ALW,
            "dec " ++ sampleDecls.regName (sampleDecls.aluReg 0b11000010))
        else
          (sampleDecls.writeToBus (sampleDecls.aluReg 0b11000010) |||
            sampleDecls.ALU_A_PLUS_B ||| sampleDecls.ALC ||| sampleDecls._ALW,
            "inc " ++ sampleDecls.regName (sampleDecls.aluReg 0b11000010))) ∧
    getControlWord sampleDecls ⟨0b11000010, 3, false, false, false, false⟩ "" =
      (sampleDecls.readFromBus (sampleDecls.aluReg 0b11000010) |||
        sampleDecls.writeToBus Register.Acc ||| sampleDecls._TR,
        (if sampleDecls.useCarry 0b11000010 then "dec " else "inc ") ++
          sampleDecls.regName (sampleDecls.aluReg 0b11000010)) :=
  inc_dec sampleDecls 0b11000010 false false false false "" (by decide) (by decide)

/-- C9 (as stated, refuted): the MOV-group opcode with src = dest = Imm
(0b00_111_111) is decoded as the conditional jump `jnc`: with the sample
declarations and the carry flag clear, its control word at microtime 2 is not
`_TR` and the description is set. -/
theorem mov_imm_imm_is_not_undefined :
    (getControlWord sampleDecls ⟨0b00111111, 2, false, false, false, false⟩ "").1
      ≠ sampleDecls._TR ∧
    (getControlWord sampleDecls ⟨0b00111111, 2, false, false, false, false⟩ "").2 ≠ "" := by
  decide

/-- C9 (amended): for every MOV-group opcode with src = dest in {Rb, Rc, Rd, StP,
StPi} and every flag combination, the control word at every microtime >= 2 is
exactly `_TR` and no description is set; src = dest = Imm is decoded as the
conditional jump `jnc`, taken iff the carry flag is clear. -/
theorem mov_same_register (K : Decls) (opcode t : Nat) (c z o n : Bool) (desc : String)
    (hg : Opcode.group opcode = OpcodeGroup.MOV_BITS)
    (hsd : Opcode.srcReg opcode = Opcode.destReg opcode)
    (ht : 2 ≤ t) :
    (2 ≤ Opcode.destReg opcode ∧ Opcode.destReg opcode ≤ 6 →
      getControlWord K ⟨opcode, t, c, z, o, n⟩ desc = (K._TR, desc)) ∧
    (Opcode.destReg opcode = Register.Imm →
      getControlWord K ⟨opcode, t, c, z, o, n⟩ desc =
        getConditionalJumpControlWord K ⟨opcode, t, c, z, o, n⟩ desc ∧
      jumpSelect ⟨opcode, t, c, z, o, n⟩ desc = ("jnc", !c)) := by
  have h0 : ¬ t = 0 := by omega
  have h1 : ¬ t = 1 := by omega
  unfold getControlWord getMovControlWord jumpSelect
  simp only [hg, hsd, h0, h1, OpcodeGroup.MOV_BITS, if_true, if_false]
  generalize Opcode.destReg opcode = d
  constructor
  · rintro ⟨hd2, hd6⟩
    interval_cases d <;>
      simp [Register.Imm, Register.Acc, Register.PC, Register.Ra, INSTRUCTION_END]
  · rintro rfl
    simp [Register.Imm, Carry, Zero, Oflow, Neg, notCarry_eq]

theorem mov_same_register_witness :
    (2 ≤ Opcode.destReg 0b00011011 ∧ Opcode.destReg 0b00011011 ≤ 6 ∧
      getControlWord sampleDecls ⟨0b00011011, 2, true, false, true, false⟩ "x" =
        (sampleDecls._TR, "x")) ∧
    (Opcode.destReg 0b00111111 = Register.Imm ∧
      getControlWord sampleDecls ⟨0b00111111, 2, true, false, true, false⟩ "x" =
        getConditionalJumpControlWord sampleDecls ⟨0b00111111, 2, true, false, true, false⟩ "x" ∧
      jumpSelect ⟨0b00111111, 2, true, false, true, false⟩ "x" = ("jnc", !true)) :=
  ⟨⟨by decide, by decide,
    (mov_same_register sampleDecls 0b00011011 2 true false true false "x" (by decide)
      (by decide) (by decide)).1 ⟨by decide, by decide⟩⟩,
   ⟨by decide,
    (mov_same_register sampleDecls 0b00111111 2 true false true false "x" (by decide)
      (by decide) (by decide)).2 (by decide)⟩⟩

/-- With the sample declarations, the LOD-group opcode with dest = StPi (0b110)
and src = PC (0b000) does not produce the "lcd mem" sequence of the branch
`src == Register::PC()` of `getLodControlWord`: the words at microtimes 2 to 5
and the description are not all those of that branch. -/
theorem lod_stpi_pc_is_not_lcd_mem :
    ¬ ((getControlWord sampleDecls ⟨0b01110000, 2, false, false, false, false⟩ "").1 =
        sampleDecls._MAW ||| sampleDecls.BW_PC ∧
      (getControlWord sampleDecls ⟨0b01110000, 3, false, false, false, false⟩ "").1 =
        sampleDecls.PCC ||| sampleDecls.BW_MEM ||| sampleDecls.PGM ||| sampleDecls._MAW ∧
      (getControlWord sampleDecls ⟨0b01110000, 4, false, false, false, false⟩ "").1 =
        sampleDecls.BW_MEM ||| sampleDecls._ALW ||| sampleDecls.ALU_A_PLUS_B ∧
      (getControlWord sampleDecls ⟨0b01110000, 5, false, false, false, false⟩ "").1 =
        sampleDecls.LCD_DATA ||| sampleDecls.LCD ||| sampleDecls.writeToBus Register.Acc |||
          sampleDecls._TR ∧
      (getControlWord sampleDecls ⟨0b01110000, 2, false, false, false, false⟩ "").2 =
        "lcd mem") := by
  decide

/-- C18: for every 3-bit selector s and every flag combination, the MOV-group
conditional-jump opcodes with src = s and src = ~s & 7 (s xor 7 on three bits)
take opposite decisions, so exactly one of the two produces the taken word
`BW_PC | _MAW` at microtime 2 and the other the not-taken word `PCC`.  `BW_PC` is
the bus-write mask of PC. -/
theorem complementary_selectors (K : Decls) (op1 op2 : Nat) (c z o n : Bool)
    (desc1 desc2 : String)
    (hPC : K.writeToBus Register.PC = K.BW_PC)
    (hg1 : Opcode.group op1 = OpcodeGroup.MOV_BITS) (hd1 : Opcode.destReg op1 = 0b111)
    (hg2 : Opcode.group op2 = OpcodeGroup.MOV_BITS) (hd2 : Opcode.destReg op2 = 0b111)
    (hs : Opcode.srcReg op2 = Opcode.srcReg op1 ^^^ 7) :
    (jumpSelect ⟨op1, 2, c, z, o, n⟩ desc1).2 = !(jumpSelect ⟨op2, 2, c, z, o, n⟩ desc2).2 ∧
    (((getControlWord K ⟨op1, 2, c, z, o, n⟩ desc1).1 = K.BW_PC ||| K._MAW ∧
        (getControlWord K ⟨op2, 2, c, z, o, n⟩ desc2).1 = K.PCC) ∨
      ((getControlWord K ⟨op1, 2, c, z, o, n⟩ desc1).1 = K.PCC ∧
        (getControlWord K ⟨op2, 2, c, z, o, n⟩ desc2).1 = K.BW_PC ||| K._MAW)) := by
  have hs1 := srcReg_lt op1
  unfold getControlWord getMovControlWord getConditionalJumpControlWord jumpSelect
  simp only [hg1, hd1, hg2, hd2, hs, Register.Imm, OpcodeGroup.MOV_BITS, SET_MAW_FROM_PC, hPC,
    READ_PROGRAM_MEMORY, INSTRUCTION_END]
  generalize Opcode.srcReg op1 = s at hs1 ⊢
  interval_cases s <;> cases c <;> cases z <;> cases o <;> cases n <;>
    simp [Carry, Zero, Oflow, Neg, notCarry_eq, notZero_eq, notOflow_eq, notNeg_eq,
      STEP1, STEP2]

theorem complementary_selectors_witness :
    (jumpSelect ⟨0b00111001, 2, false, true, false, false⟩ "").2
      = !(jumpSelect ⟨0b00111110, 2, false, true, false, false⟩ "").2 ∧
    (((getControlWord sampleDecls ⟨0b00111001, 2, false, true, false, false⟩ "").1
          = sampleDecls.BW_PC ||| sampleDecls._MAW ∧
        (getControlWord sampleDecls ⟨0b00111110, 2, false, true, false, false⟩ "").1
          = sampleDecls.PCC) ∨
      ((getControlWord sampleDecls ⟨0b00111001, 2, false, true, false, false⟩ "").1
          = sampleDecls.PCC ∧
        (getControlWord sampleDecls ⟨0b00111110, 2, false, true, false, false⟩ "").1
          = sampleDecls.BW_PC ||| sampleDecls._MAW)) :=
  complementary_selectors sampleDecls 0b00111001 0b00111110 false true false false "" ""
    (by decide) (by decide) (by decide) (by decide) (by decide) (by decide)

/-- C19: for every ALU-group address at microtime 2 with target register reg, if
the decoded mode is A_PLUS_B the control word is
`reg.write_to_bus | ALB | (mode << ALU_OFFSET) | _ALW` with `ALC` OR-ed in exactly
when use_carry is set and the carry flag is set; if the mode is A_MINUS_B or
B_MINUS_A it is the same shape with `ALC` OR-ed in exactly when NOT (use_carry and
carry flag).  At microtime 3 the word is
`reg.read_from_bus | Acc.write_to_bus | _TR` in both cases. -/
theorem carry_in_rule (K : Decls) (opcode : Nat) (c z o n : Bool) (desc : String)
    (hg : Opcode.group opcode = OpcodeGroup.ALU_BITS) :
    (K.aluMode opcode = AluMode.A_PLUS_B →
      (getControlWord K ⟨opcode, 2, c, z, o, n⟩ desc).1 =
        (if K.useCarry opcode = true ∧ c = true then
          K.writeToBus (K.aluReg opcode) ||| K.ALB |||
            (K.modeBits AluMode.A_PLUS_B <<< K.ALU_OFFSET) ||| K._ALW ||| K.ALC
        else
          K.writeToBus (K.aluReg opcode) ||| K.ALB |||
            (K.modeBits AluMode.A_PLUS_B <<< K.ALU_OFFSET) ||| K._ALW) ∧
      (getControlWord K ⟨opcode, 3, c, z, o, n⟩ desc).1 =
        K.readFromBus (K.aluReg opcode) ||| K.writeToBus Register.Acc ||| K._TR) ∧
    (K.aluMode opcode = AluMode.A_MINUS_B ∨ K.aluMode opcode = AluMode.B_MINUS_A →
      (getControlWord K ⟨opcode, 2, c, z, o, n⟩ desc).1 =
        (if ¬ (K.useCarry opcode = true ∧ c = true) then
          K.writeToBus (K.aluReg opcode) ||| K.ALB |||
            (K.modeBits (K.aluMode opcode) <<< K.ALU_OFFSET) ||| K._ALW ||| K.ALC
        else
          K.writeToBus (K.aluReg opcode) ||| K.ALB |||
            (K.modeBits (K.aluMode opcode) <<< K.ALU_OFFSET) ||| K._ALW) ∧
      (getControlWord K ⟨opcode, 3, c, z, o, n⟩ desc).1 =
        K.readFromBus (K.aluReg opcode) ||| K.writeToBus Register.Acc ||| K._TR) := by
  unfold getControlWord getAluControlWord
  refine ⟨fun hm => ?_, fun hm => ?_⟩
  · cases hc : K.useCarry opcode <;> cases c <;>
      simp [hg, hm, hc, OpcodeGroup.ALU_BITS, OpcodeGroup.MOV_BITS, OpcodeGroup.LOD_BITS,
        OpcodeGroup.STO_BITS, INSTRUCTION_END, STEP1, STEP2]
  · rcases hm with hm | hm <;> cases hc : K.useCarry opcode <;> cases c <;>
      simp [hg, hm, hc, OpcodeGroup.ALU_BITS, OpcodeGroup.MOV_BITS, OpcodeGroup.LOD_BITS,
        OpcodeGroup.STO_BITS, INSTRUCTION_END, STEP1, STEP2]

theorem carry_in_rule_witness :
    (sampleDecls.aluMode 0b11001010 = AluMode.A_PLUS_B ∧
      (getControlWord sampleDecls ⟨0b11001010, 2, true, false, false, false⟩ "").1 =
        (if sampleDecls.useCarry 0b11001010 = true ∧ true = true then
          sampleDecls.writeToBus (sampleDecls.aluReg 0b11001010) ||| sampleDecls.ALB |||
            (sampleDecls.modeBits AluMode.A_PLUS_B <<< sampleDecls.ALU_OFFSET) |||
            sampleDecls._ALW ||| sampleDecls.ALC
        else
          sampleDecls.writeToBus (sampleDecls.aluReg 0b11001010) ||| sampleDecls.ALB |||
            (sampleDecls.modeBits AluMode.A_PLUS_B <<< sampleDecls.ALU_OFFSET) |||
            sampleDecls._ALW) ∧
      (getControlWord sampleDecls ⟨0b11001010, 3, true, false, false, false⟩ "").1 =
        sampleDecls.readFromBus (sampleDecls.aluReg 0b11001010) |||
          sampleDecls.writeToBus Register.Acc ||| sampleDecls._TR) ∧
    ((sampleDecls.aluMode 0b11010010 = AluMode.A_MINUS_B ∨
        sampleDecls.aluMode 0b11010010 = AluMode.B_MINUS_A) ∧
      (getControlWord sampleDecls ⟨0b11010010, 2, true, false, false, false⟩ "").1 =
        (if ¬ (sampleDecls.useCarry 0b11010010 = true ∧ true = true) then
          sampleDecls.writeToBus (sampleDecls.aluReg 0b11010010) ||| sampleDecls.ALB |||
            (sampleDecls.modeBits (sampleDecls.aluMode 0b11010010) <<< sampleDecls.ALU_OFFSET)
            ||| sampleDecls._ALW ||| sampleDecls.ALC
        else
          sampleDecls.writeToBus (sampleDecls.aluReg 0b11010010) ||| sampleDecls.ALB |||
            (sampleDecls.modeBits (sampleDecls.aluMode 0b11010010) <<< sampleDecls.ALU_OFFSET)
            ||| sampleDecls._ALW) ∧
      (getControlWord sampleDecls ⟨0b11010010, 3, true, false, false, false⟩ "").1 =
        sampleDecls.readFromBus (sampleDecls.aluReg 0b11010010) |||
          sampleDecls.writeToBus Register.Acc ||| sampleDecls._TR) :=
  ⟨⟨by decide,
    (carry_in_rule sampleDecls 0b11001010 true false false false "" (by decide)).1 (by decide)⟩,
   ⟨by decide,
    (carry_in_rule sampleDecls 0b11010010 true false false false "" (by decide)).2 (by decide)⟩⟩

/-- C20: for every dest in {PC, Ra, Rb, Rc, Rd, StP}, every microtime and every
flag combination, `getControlWord` for the STO-group opcode with that dest and
src = StPi returns the same control word as for the LOD-group opcode with the
same dest and src = StPi. -/
theorem ret_pop_group_independent (K : Decls) (opS opL t : Nat) (c z o n : Bool)
    (descS descL : String)
    (hgS : Opcode.group opS = OpcodeGroup.STO_BITS)
    (hgL : Opcode.group opL = OpcodeGroup.LOD_BITS)
    (hsS : Opcode.srcReg opS = Register.StPi) (hsL : Opcode.srcReg opL = Register.StPi)
    (hd : Opcode.destReg opS = Opcode.destReg opL) (hd5 : Opcode.destReg opL ≤ 5) :
    (getControlWord K ⟨opS, t, c, z, o, n⟩ descS).1
      = (getControlWord K ⟨opL, t, c, z, o, n⟩ descL).1 := by
  unfold getControlWord getStoControlWord getLodControlWord
  simp only [hgS, hgL, hsS, hsL, hd, OpcodeGroup.MOV_BITS, OpcodeGroup.LOD_BITS,
    OpcodeGroup.STO_BITS, Register.StPi, Register.Imm, Register.PC, Register.StP,
    INSTRUCTION_END]
  generalize Opcode.destReg opL = d at hd5 ⊢
  interval_cases d <;> simp <;> split_ifs <;> rfl

theorem ret_pop_group_independent_witness :
    (getControlWord sampleDecls ⟨0b10000110, 6, false, false, false, false⟩ "").1
      = (getControlWord sampleDecls ⟨0b01000110, 6, false, false, false, false⟩ "").1 :=
  ret_pop_group_independent sampleDecls 0b10000110 0b01000110 6 false false false false "" ""
    (by decide) (by decide) (by decide) (by decide) (by decide) (by decide)

/-- C21: for every dest, src in {PC, Ra, Rb, Rc, Rd, StP} and all flags, the
LOD-group opcode yields `_MAW | src.write_to_bus` at microtime 2 and
`BW_MEM | dest.read_from_bus | _TR` at microtime 3 with `PGM` additionally OR-ed
in iff src = Rc; the STO-group opcode yields `dest.write_to_bus | _MAW` at
microtime 2 and `src.write_to_bus | _MW | _TR` at microtime 3 with `PGM`
additionally OR-ed in iff dest = Rc. -/
theorem indirect_load_store (K : Decls) (opcode : Nat) (c z o n : Bool) (desc : String)
    (hd : Opcode.destReg opcode ≤ 5) (hs : Opcode.srcReg opcode ≤ 5) :
    (Opcode.group opcode = OpcodeGroup.LOD_BITS →
      (getControlWord K ⟨opcode, 2, c, z, o, n⟩ desc).1 =
        K._MAW ||| K.writeToBus (Opcode.srcReg opcode) ∧
      (getControlWord K ⟨opcode, 3, c, z, o, n⟩ desc).1 =
        (if Opcode.srcReg opcode = Register.Rc then
          K.PGM ||| K.BW_MEM ||| K.readFromBus (Opcode.destReg opcode) ||| K._TR
        else K.BW_MEM ||| K.readFromBus (Opcode.destReg opcode) ||| K._TR)) ∧
    (Opcode.group opcode = OpcodeGroup.STO_BITS →
      (getControlWord K ⟨opcode, 2, c, z, o, n⟩ desc).1 =
        K.writeToBus (Opcode.destReg opcode) ||| K._MAW ∧
      (getControlWord K ⟨opcode, 3, c, z, o, n⟩ desc).1 =
        (if Opcode.destReg opcode = Register.Rc then
          K.PGM ||| K.writeToBus (Opcode.srcReg opcode) ||| K._MW ||| K._TR
        else K.writeToBus (Opcode.srcReg opcode) ||| K._MW ||| K._TR)) := by
  unfold getControlWord getLodControlWord getStoControlWord
  dsimp only
  generalize Opcode.destReg opcode = d at hd ⊢
  generalize Opcode.srcReg opcode = s at hs ⊢
  refine ⟨fun hg => ?_, fun hg => ?_⟩ <;>
    simp only [hg, OpcodeGroup.MOV_BITS, OpcodeGroup.LOD_BITS, OpcodeGroup.STO_BITS,
      INSTRUCTION_END] <;>
    interval_cases d <;> interval_cases s <;>
    simp [Register.StPi, Register.StP, Register.Imm, Register.PC, Register.Rc, STEP1, STEP2]

theorem indirect_load_store_witness :
    (Opcode.group 0b01001011 = OpcodeGroup.LOD_BITS ∧
      (getControlWord sampleDecls ⟨0b01001011, 2, false, false, false, false⟩ "").1 =
        sampleDecls._MAW ||| sampleDecls.writeToBus (Opcode.srcReg 0b01001011) ∧
      (getControlWord sampleDecls ⟨0b01001011, 3, false, false, false, false⟩ "").1 =
        (if Opcode.srcReg 0b01001011 = Register.Rc then
          sampleDecls.PGM ||| sampleDecls.BW_MEM |||
            sampleDecls.readFromBus (Opcode.destReg 0b01001011) ||| sampleDecls._TR
        else sampleDecls.BW_MEM |||
            sampleDecls.readFromBus (Opcode.destReg 0b01001011) ||| sampleDecls._TR)) ∧
    (Opcode.group 0b10011001 = OpcodeGroup.STO_BITS ∧
      (getControlWord sampleDecls ⟨0b10011001, 2, false, false, false, false⟩ "").1 =
        sampleDecls.writeToBus (Opcode.destReg 0b10011001) ||| sampleDecls._MAW ∧
      (getControlWord sampleDecls ⟨0b10011001, 3, false, false, false, false⟩ "").1 =
        (if Opcode.destReg 0b10011001 = Register.Rc then
          sampleDecls.PGM ||| sampleDecls.writeToBus (Opcode.srcReg 0b10011001) |||
            sampleDecls._MW ||| sampleDecls._TR
        else sampleDecls.writeToBus (Opcode.srcReg 0b10011001) ||| sampleDecls._MW |||
            sampleDecls._TR)) :=
  ⟨⟨by decide,
    (indirect_load_store sampleDecls 0b01001011 false false false false "" (by decide)
      (by decide)).1 (by decide)⟩,
   ⟨by decide,
    (indirect_load_store sampleDecls 0b10011001 false false false false "" (by decide)
      (by decide)).2 (by decide)⟩⟩

/-! ## Flags and the end of the instruction -/

theorem mov_no_flags (K : Decls) (opcode t : Nat) (c z o n c2 z2 o2 n2 : Bool) (desc : String)
    (hj : ¬ Opcode.destReg opcode = Register.Imm) :
    getMovControlWord K ⟨opcode, t, c, z, o, n⟩ desc
      = getMovControlWord K ⟨opcode, t, c2, z2, o2, n2⟩ desc := by
  unfold getMovControlWord
  simp only [hj, if_false]

theorem alu_no_flags (K : Decls) (opcode t : Nat) (c z o n c2 z2 o2 n2 : Bool) (desc : String)
    (hc : c = c2 ∨ ¬ ((K.aluMode opcode = AluMode.A_PLUS_B ∨
      K.aluMode opcode = AluMode.A_MINUS_B ∨ K.aluMode opcode = AluMode.B_MINUS_A) ∧
      K.useCarry opcode = true)) :
    getAluControlWord K ⟨opcode, t, c, z, o, n⟩ desc
      = getAluControlWord K ⟨opcode, t, c2, z2, o2, n2⟩ desc := by
  unfold getAluControlWord
  rcases hc with rfl | hc
  · rfl
  · cases hm : K.aluMode opcode <;> cases hu : K.useCarry opcode <;>
      simp [hm, hu] at hc ⊢

/-- C24: for every opcode and microtime, the result of `getControlWord` does not
depend on the zero, overflow or negative flag unless the opcode is a MOV-group
conditional jump (dest = 0b111), and does not depend on the carry flag unless the
opcode is such a conditional jump or an ALU-group opcode with mode A_PLUS_B,
A_MINUS_B or B_MINUS_A and use_carry set. -/
theorem flag_independence (K : Decls) (opcode t : Nat) (c z o n c2 z2 o2 n2 : Bool)
    (desc : String)
    (hj : ¬ (Opcode.group opcode = OpcodeGroup.MOV_BITS ∧ Opcode.destReg opcode = 0b111)) :
    getControlWord K ⟨opcode, t, c, z, o, n⟩ desc
      = getControlWord K ⟨opcode, t, c, z2, o2, n2⟩ desc ∧
    (¬ (Opcode.group opcode = OpcodeGroup.ALU_BITS ∧
        (K.aluMode opcode = AluMode.A_PLUS_B ∨ K.aluMode opcode = AluMode.A_MINUS_B ∨
          K.aluMode opcode = AluMode.B_MINUS_A) ∧ K.useCarry opcode = true) →
      getControlWord K ⟨opcode, t, c, z, o, n⟩ desc
        = getControlWord K ⟨opcode, t, c2, z2, o2, n2⟩ desc) := by
  unfold getControlWord
  dsimp only
  constructor
  · split_ifs with h0 h1 hg
    · rfl
    · rfl
    · exact mov_no_flags K opcode t c z o n c z2 o2 n2 desc (fun hd => hj ⟨hg, hd⟩)
    · rfl
    · rfl
    · exact alu_no_flags K opcode t c z o n c z2 o2 n2 desc (Or.inl rfl)
    · rfl
  · intro ha
    split_ifs with h0 h1 hg hL hS hA
    · rfl
    · rfl
    · exact mov_no_flags K opcode t c z o n c2 z2 o2 n2 desc (fun hd => hj ⟨hg, hd⟩)
    · rfl
    · rfl
    · exact alu_no_flags K opcode t c z o n c2 z2 o2 n2 desc
        (Or.inr (fun h => ha ⟨hA, h.1, h.2⟩))
    · rfl

theorem flag_independence_witness :
    ¬ (Opcode.group 0b11000010 = OpcodeGroup.MOV_BITS ∧ Opcode.destReg 0b11000010 = 0b111) ∧
    getControlWord sampleDecls ⟨0b11000010, 2, true, false, false, false⟩ ""
      = getControlWord sampleDecls ⟨0b11000010, 2, true, true, true, true⟩ "" ∧
    (¬ (Opcode.group 0b11000010 = OpcodeGroup.ALU_BITS ∧
        (sampleDecls.aluMode 0b11000010 = AluMode.A_PLUS_B ∨
          sampleDecls.aluMode 0b11000010 = AluMode.A_MINUS_B ∨
          sampleDecls.aluMode 0b11000010 = AluMode.B_MINUS_A) ∧
        sampleDecls.useCarry 0b11000010 = true) ∧
      getControlWord sampleDecls ⟨0b11000010, 2, true, false, false, false⟩ ""
        = getControlWord sampleDecls ⟨0b11000010, 2, false, true, true, true⟩ "") :=
  ⟨by decide,
    (flag_independence sampleDecls 0b11000010 2 true false false false false true true true ""
      (by decide)).1,
    by decide,
    (flag_independence sampleDecls 0b11000010 2 true false false false false true true true ""
      (by decide)).2 (by decide)⟩

theorem lor_eq_of_land_eq (w t : Nat) (h : w &&& t = t) : w ||| t = w := by
  apply Nat.eq_of_testBit_eq
  intro i
  have hi : (w &&& t).testBit i = t.testBit i := by rw [h]
  simp only [Nat.testBit_land] at hi
  simp only [Nat.testBit_lor]
  cases hw : w.testBit i <;> cases ht : t.testBit i <;> simp_all

/-- C25: for every opcode other than `hlt` (MOV with src = dest = PC) and every
flag combination, the control word at microtime 7 has `_TR` set
(word | _TR = word), and for `hlt` the control word is exactly `HLT` at every
microtime from 2 to 7. -/
theorem no_runaway_microtime (K : Decls) (opcode : Nat) (c z o n : Bool) (desc : String) :
    (¬ isHlt opcode →
      (getControlWord K ⟨opcode, 7, c, z, o, n⟩ desc).1 ||| K._TR
        = (getControlWord K ⟨opcode, 7, c, z, o, n⟩ desc).1) ∧
    (isHlt opcode → ∀ t, 2 ≤ t → t ≤ 7 →
      (getControlWord K ⟨opcode, t, c, z, o, n⟩ desc).1 = K.HLT) := by
  constructor
  · intro h
    exact lor_eq_of_land_eq _ _ (tr_at_step6 K opcode c z o n desc h)
  · rintro ⟨hg, hd, hs⟩ t h2 _
    have h0 : ¬ t = 0 := by omega
    have h1 : ¬ t = 1 := by omega
    simp [getControlWord, getMovControlWord, h0, h1, hg, hd, hs, Register.PC, Register.Imm,
      Register.Acc]

theorem no_runaway_microtime_witness :
    (¬ isHlt 0b10110111 ∧
      (getControlWord sampleDecls ⟨0b10110111, 7, false, false, false, false⟩ "").1
          ||| sampleDecls._TR
        = (getControlWord sampleDecls ⟨0b10110111, 7, false, false, false, false⟩ "").1) ∧
    (isHlt 0 ∧ (2 ≤ 5 ∧ 5 ≤ 7 ∧
      (getControlWord sampleDecls ⟨0, 5, false, false, false, false⟩ "").1 = sampleDecls.HLT)) :=
  ⟨⟨by decide,
    (no_runaway_microtime sampleDecls 0b10110111 false false false false "").1 (by decide)⟩,
   ⟨by decide, by decide, by decide,
    (no_runaway_microtime sampleDecls 0 false false false false "").2 (by decide) 5 (by decide)
      (by decide)⟩⟩

end Microcode

namespace Lcd

set_option maxRecDepth 8000

/-! ## Cursor addressing -/

/-- C11: `sendCommand` with bit 7 set (SET_DRAM_ADDR) sets the cursor offset to
`min(command & 0x7F, LINE_WIDTH*height - 1)` and leaves the DDRAM contents, the
entry-mode byte and the display-flags byte unchanged. -/
theorem sendCommand_setDramAddr (H : Header) (lcd : LCD) (command : Nat)
    (h7 : command &&& 0x80 ≠ 0) :
    (sendCommand H lcd command).ptr
      = min (((command &&& 0x7F : Nat) : Int)) (H.LINE_WIDTH * lcd.height - 1) ∧
    (sendCommand H lcd command).data = lcd.data ∧
    (sendCommand H lcd command).entryModeFlags = lcd.entryModeFlags ∧
    (sendCommand H lcd command).displayFlags = lcd.displayFlags := by
  have hc : 0 ≤ ((command &&& 0x7F : Nat) : Int) := Int.ofNat_nonneg _
  unfold sendCommand
  simp only [LCD_CMD_SET_DRAM_ADDR, h7, ne_eq, not_false_eq_true, if_true, and_true]
  generalize H.LINE_WIDTH * lcd.height = size
  generalize ((command &&& 0x7F : Nat) : Int) = offset at hc ⊢
  split_ifs <;> omega

theorem sendCommand_setDramAddr_witness :
    (0x80 ||| 0x45) &&& 0x80 ≠ 0 ∧
    (sendCommand sampleHeader (newLCD sampleHeader zeroBlock 16 2) (0x80 ||| 0x45)).ptr
      = min ((((0x80 ||| 0x45) &&& 0x7F : Nat) : Int))
          (sampleHeader.LINE_WIDTH * (newLCD sampleHeader zeroBlock 16 2).height - 1) ∧
    (sendCommand sampleHeader (newLCD sampleHeader zeroBlock 16 2) (0x80 ||| 0x45)).data
      = (newLCD sampleHeader zeroBlock 16 2).data ∧
    (sendCommand sampleHeader (newLCD sampleHeader zeroBlock 16 2) (0x80 ||| 0x45)).entryModeFlags
      = (newLCD sampleHeader zeroBlock 16 2).entryModeFlags ∧
    (sendCommand sampleHeader (newLCD sampleHeader zeroBlock 16 2) (0x80 ||| 0x45)).displayFlags
      = (newLCD sampleHeader zeroBlock 16 2).displayFlags :=
  ⟨by decide,
    sendCommand_setDramAddr sampleHeader (newLCD sampleHeader zeroBlock 16 2) (0x80 ||| 0x45)
      (by decide)⟩

/-! ## Writing bytes -/

theorem writeByte_advance (H : Header) (lcd : LCD) (b : Nat)
    (hinc : lcd.entryModeFlags &&& H.LCD_CMD_ENTRY_MODE_INCREMENT ≠ 0)
    (hp : 0 ≤ lcd.ptr) (hpw : lcd.ptr + 1 ≤ lcd.width)
    (hw : lcd.width + 2 ≤ H.LINE_WIDTH) (hh : 1 ≤ lcd.height) :
    writeByte H lcd b = { lcd with data := store lcd.data lcd.ptr b, ptr := lcd.ptr + 1 } := by
  have hmod : ¬ (lcd.ptr + 1 + 1) % H.LINE_WIDTH = 0 := by
    rw [Int.emod_eq_of_lt (by omega) (by omega)]
    omega
  have hmul : lcd.width + 1 ≤ (lcd.width + 1) * lcd.height :=
    le_mul_of_one_le_right (by omega) hh
  have hwrap : ¬ lcd.ptr + 1 ≥ (lcd.width + 1) * lcd.height := by omega
  simp only [writeByte, increment, hinc, ne_eq, not_false_eq_true, if_true, hmod, if_false,
    hwrap]

theorem writeBytes_advance (H : Header) (bs : List Nat) :
    ∀ lcd : LCD, lcd.entryModeFlags &&& H.LCD_CMD_ENTRY_MODE_INCREMENT ≠ 0 →
      0 ≤ lcd.ptr → lcd.ptr + bs.length ≤ lcd.width →
      lcd.width + 2 ≤ H.LINE_WIDTH → 1 ≤ lcd.height →
      (bs.foldl (writeByte H) lcd).ptr = lcd.ptr + bs.length ∧
      (bs.foldl (writeByte H) lcd).width = lcd.width ∧
      (bs.foldl (writeByte H) lcd).height = lcd.height ∧
      (∀ i : Nat, ∀ hi : i < bs.length,
        (bs.foldl (writeByte H) lcd).data (lcd.ptr + i) = bs[i]) ∧
      (∀ j : Int, j < lcd.ptr ∨ lcd.ptr + bs.length ≤ j →
        (bs.foldl (writeByte H) lcd).data j = lcd.data j) := by
  induction bs with
  | nil =>
    intro lcd _ _ _ _ _
    simp
  | cons b rest ih =>
    intro lcd hinc hp hlen hw hh
    simp only [List.length_cons, Nat.cast_add, Nat.cast_one] at hlen
    have hstep := writeByte_advance H lcd b hinc hp (by omega) hw hh
    simp only [List.foldl_cons, hstep]
    obtain ⟨h1, h2, h3, h4, h5⟩ :=
      ih { lcd with data := store lcd.data lcd.ptr b, ptr := lcd.ptr + 1 } hinc
        (by simp only; omega) (by simp only; omega) hw hh
    simp only at h1 h2 h3 h4 h5
    refine ⟨?_, h2, h3, ?_, ?_⟩
    · rw [h1]; simp only [List.length_cons, Nat.cast_add, Nat.cast_one]; omega
    · intro i hi
      cases i with
      | zero =>
        have := h5 lcd.ptr (Or.inl (by omega))
        simp only [Nat.cast_zero, add_zero, List.getElem_cons_zero]
        rw [this]
        simp [store]
      | succ k =>
        have hk : k < rest.length := by simpa using hi
        have := h4 k hk
        simp only [List.getElem_cons_succ, Nat.cast_add, Nat.cast_one]
        rw [← this]
        congr 1
        omega
    · intro j hj
      simp only [List.length_cons, Nat.cast_add, Nat.cast_one] at hj
      rw [h5 j (by omega)]
      have : j ≠ lcd.ptr := by omega
      simp [store, this]

theorem writeString_eq_foldl (H : Header) (s : List Nat) (hs : ∀ c ∈ s, c ≠ 0) :
    ∀ lcd : LCD, writeString H lcd s = s.foldl (writeByte H) lcd := by
  induction s with
  | nil => intro lcd; rfl
  | cons c rest ih =>
    intro lcd
    have hc : c ≠ 0 := hs c (List.mem_cons_self _ _)
    simp only [writeString, hc, if_false, List.foldl_cons]
    exact ih (fun d hd => hs d (List.mem_cons_of_mem _ hd)) _

/-- C12 (the code at the failing input): with `LINE_WIDTH = 40`, on the LCD
`newLCD(40, 1)`, whose DDRAM has `LINE_WIDTH * height = 40` cells, after
`sendCommand(0x06)` (entry mode, increment), `sendCommand(0x80 | 38)` and one
`writeByte`, the cursor offset is 40: it is not inside DDRAM. -/
theorem cursor_leaves_ddram :
    (1 : Int) ≤ 40 ∧ (40 : Int) ≤ sampleHeader.LINE_WIDTH ∧
    (run sampleHeader (newLCD sampleHeader zeroBlock 40 1)
      [Op.command 0x06, Op.command (0x80 ||| 38), Op.write 65]).ptr = 40 ∧
    sampleHeader.LINE_WIDTH *
      (run sampleHeader (newLCD sampleHeader zeroBlock 40 1)
        [Op.command 0x06, Op.command (0x80 ||| 38), Op.write 65]).height = 40 := by
  decide

/-- C13 (as stated, refuted): with `LINE_WIDTH = 40`, on a 16x2 LCD whose entry
mode has INCREMENT set and whose cursor is at offset 0, after writing 16 bytes
with `writeByte` the cursor offset is 16, not `LINE_WIDTH`. -/
theorem line_gap_not_skipped_16x2 :
    sampleHeader.LINE_WIDTH = 40 ∧
    (sendCommand sampleHeader (newLCD sampleHeader zeroBlock 16 2) 0x06).width = 16 ∧
    (sendCommand sampleHeader (newLCD sampleHeader zeroBlock 16 2) 0x06).entryModeFlags
      &&& sampleHeader.LCD_CMD_ENTRY_MODE_INCREMENT ≠ 0 ∧
    (sendCommand sampleHeader (newLCD sampleHeader zeroBlock 16 2) 0x06).ptr = 0 ∧
    ((List.replicate 16 65).foldl (writeByte sampleHeader)
      (sendCommand sampleHeader (newLCD sampleHeader zeroBlock 16 2) 0x06)).ptr = 16 ∧
    ((List.replicate 16 65).foldl (writeByte sampleHeader)
      (sendCommand sampleHeader (newLCD sampleHeader zeroBlock 16 2) 0x06)).ptr
      ≠ sampleHeader.LINE_WIDTH := by
  decide

theorem writeByte_advance_line (H : Header) (lcd : LCD) (b : Nat)
    (hinc : lcd.entryModeFlags &&& H.LCD_CMD_ENTRY_MODE_INCREMENT ≠ 0)
    (hp : 0 ≤ lcd.ptr) (hskip : lcd.ptr + 2 < H.LINE_WIDTH)
    (hwrap : lcd.ptr + 1 < (lcd.width + 1) * lcd.height) :
    writeByte H lcd b = { lcd with data := store lcd.data lcd.ptr b, ptr := lcd.ptr + 1 } := by
  have hmod : ¬ (lcd.ptr + 1 + 1) % H.LINE_WIDTH = 0 := by
    rw [Int.emod_eq_of_lt (by omega) (by omega)]
    omega
  have hwrap2 : ¬ lcd.ptr + 1 ≥ (lcd.width + 1) * lcd.height := by omega
  simp only [writeByte, increment, hinc, ne_eq, not_false_eq_true, if_true, hmod, if_false,
    hwrap2]

theorem writeBytes_advance_line (H : Header) (bs : List Nat) :
    ∀ lcd : LCD, lcd.entryModeFlags &&& H.LCD_CMD_ENTRY_MODE_INCREMENT ≠ 0 →
      0 ≤ lcd.ptr → lcd.ptr + bs.length + 1 < H.LINE_WIDTH →
      lcd.ptr + bs.length < (lcd.width + 1) * lcd.height →
      (bs.foldl (writeByte H) lcd).ptr = lcd.ptr + bs.length ∧
      (bs.foldl (writeByte H) lcd).width = lcd.width ∧
      (bs.foldl (writeByte H) lcd).height = lcd.height ∧
      (bs.foldl (writeByte H) lcd).entryModeFlags = lcd.entryModeFlags := by
  induction bs with
  | nil =>
    intro lcd _ _ _ _
    simp
  | cons b rest ih =>
    intro lcd hinc hp hlen hwrap
    simp only [List.length_cons, Nat.cast_add, Nat.cast_one] at hlen hwrap
    have hstep := writeByte_advance_line H lcd b hinc hp (by omega) (by omega)
    simp only [List.foldl_cons, hstep]
    obtain ⟨h1, h2, h3, h4⟩ :=
      ih { lcd with data := store lcd.data lcd.ptr b, ptr := lcd.ptr + 1 } hinc
        (by simp only; omega) (by simp only; omega) (by simp only; omega)
    simp only at h1 h2 h3 h4
    refine ⟨?_, h2, h3, h4⟩
    rw [h1]; simp only [List.length_cons, Nat.cast_add, Nat.cast_one]; omega

theorem writeByte_wrap_nonpos (H : Header) (lcd : LCD) (b : Nat)
    (hinc : lcd.entryModeFlags &&& H.LCD_CMD_ENTRY_MODE_INCREMENT ≠ 0)
    (hp : 0 ≤ lcd.ptr) (hw : 0 ≤ lcd.width) (hh : lcd.height ≤ 0) :
    writeByte H lcd b = { lcd with data := store lcd.data lcd.ptr b, ptr := 0 } := by
  have hmul : (lcd.width + 1) * lcd.height ≤ 0 :=
    Int.mul_nonpos_of_nonneg_of_nonpos (by omega) hh
  simp only [writeByte, increment, hinc, ne_eq, not_false_eq_true, if_true]
  split_ifs <;> first | rfl | (exfalso; omega)

theorem writeBytes_wrap_nonpos (H : Header) (bs : List Nat) :
    ∀ lcd : LCD, lcd.entryModeFlags &&& H.LCD_CMD_ENTRY_MODE_INCREMENT ≠ 0 →
      lcd.ptr = 0 → 0 ≤ lcd.width → lcd.height ≤ 0 →
      (bs.foldl (writeByte H) lcd).ptr = 0 := by
  induction bs with
  | nil =>
    intro lcd _ hp _ _
    simpa using hp
  | cons b rest ih =>
    intro lcd hinc hp hw hh
    simp only [List.foldl_cons, writeByte_wrap_nonpos H lcd b hinc (by omega) hw hh]
    exact ih _ hinc rfl hw hh

theorem writeByte_skip_gap (H : Header) (lcd : LCD) (b : Nat)
    (hL : H.LINE_WIDTH = 40)
    (hinc : lcd.entryModeFlags &&& H.LCD_CMD_ENTRY_MODE_INCREMENT ≠ 0)
    (hp : lcd.ptr = 38) (hw : lcd.width = 39) :
    (writeByte H lcd b).ptr = if lcd.height ≤ 1 then 0 else 40 := by
  simp only [writeByte, increment, hinc, ne_eq, not_false_eq_true, if_true, hp, hL, hw]
  norm_num

/-- C13 (amended): with `LINE_WIDTH = 40`, for an LCD of width w < 40 whose entry
mode has INCREMENT set and whose cursor is at offset 0, after writing w bytes
with `writeByte` the cursor offset equals `LINE_WIDTH` exactly when w = 39 and
the height is at least 2 (the cell at offset 39 is skipped); for w <= 38 and
height at least 1 it equals w; for w = 39 and height 1 the cursor has wrapped
to 0; and for a height below 1 it is 0. -/
theorem cursor_after_width_bytes (H : Header) (lcd : LCD) (bs : List Nat)
    (hL : H.LINE_WIDTH = 40)
    (hw : lcd.width = bs.length) (hw40 : bs.length < 40)
    (hinc : lcd.entryModeFlags &&& H.LCD_CMD_ENTRY_MODE_INCREMENT ≠ 0)
    (hp : lcd.ptr = 0) :
    (bs.foldl (writeByte H) lcd).ptr =
      if lcd.height ≤ 0 then 0
      else if lcd.width ≤ 38 then lcd.width
      else if lcd.height = 1 then 0
      else H.LINE_WIDTH := by
  by_cases hh0 : lcd.height ≤ 0
  · rw [if_pos hh0]
    exact writeBytes_wrap_nonpos H bs lcd hinc hp (by omega) hh0
  rw [if_neg hh0]
  have hh : 1 ≤ lcd.height := by omega
  by_cases h38 : lcd.width ≤ 38
  · rw [if_pos h38]
    have h := (writeBytes_advance H bs lcd hinc (by omega) (by omega) (by omega) hh).1
    rw [h, hp, hw]
    omega
  rw [if_neg h38]
  have hlen : bs.length = 39 := by omega
  have hne : bs ≠ [] := by
    intro h0
    rw [h0] at hlen
    simp at hlen
  have hsplit := List.dropLast_append_getLast hne
  have hdl : bs.dropLast.length = 38 := by
    rw [List.length_dropLast, hlen]
  have hmul : lcd.width + 1 ≤ (lcd.width + 1) * lcd.height :=
    le_mul_of_one_le_right (by omega) hh
  obtain ⟨h1, h2, h3, h4⟩ :=
    writeBytes_advance_line H bs.dropLast lcd hinc (by omega) (by rw [hdl, hp, hL]; norm_num)
      (by rw [hdl, hp]; push_cast; omega)
  rw [← hsplit, List.foldl_append, List.foldl_cons, List.foldl_nil]
  rw [writeByte_skip_gap H _ _ hL (by rw [h4]; exact hinc) (by rw [h1, hdl, hp]; norm_num)
    (by rw [h2]; omega), h3, hL]
  split_ifs <;> first | rfl | (exfalso; omega)

theorem cursor_after_width_bytes_witness :
    sampleHeader.LINE_WIDTH = 40 ∧
    ((List.replicate 16 65).foldl (writeByte sampleHeader)
      (sendCommand sampleHeader (newLCD sampleHeader zeroBlock 16 2) 0x06)).ptr = 16 ∧
    ((List.replicate 39 65).foldl (writeByte sampleHeader)
      (sendCommand sampleHeader (newLCD sampleHeader zeroBlock 39 2) 0x06)).ptr = 40 ∧
    ((List.replicate 39 65).foldl (writeByte sampleHeader)
      (sendCommand sampleHeader (newLCD sampleHeader zeroBlock 39 1) 0x06)).ptr = 0 :=
  ⟨by decide,
    cursor_after_width_bytes sampleHeader
      (sendCommand sampleHeader (newLCD sampleHeader zeroBlock 16 2) 0x06)
      (List.replicate 16 65) (by decide) (by decide) (by decide) (by decide) (by decide),
    cursor_after_width_bytes sampleHeader
      (sendCommand sampleHeader (newLCD sampleHeader zeroBlock 39 2) 0x06)
      (List.replicate 39 65) (by decide) (by decide) (by decide) (by decide) (by decide),
    cursor_after_width_bytes sampleHeader
      (sendCommand sampleHeader (newLCD sampleHeader zeroBlock 39 1) 0x06)
      (List.replicate 39 65) (by decide) (by decide) (by decide) (by decide) (by decide)⟩

/-- C14: for every LCD with height >= 1 and width + 2 <= LINE_WIDTH whose entry
mode has INCREMENT set, and every NUL-free string s of length n <= width, after
`sendCommand(CLEAR)` followed by `writeString(s)` the bytes of `readLine(0)` at
positions 0..n-1 equal s, the cursor offset is n, and `readByte` returns the
DDRAM cell at offset n, which is 0. -/
theorem clear_write_read (H : Header) (lcd : LCD) (s : List Nat)
    (hh : 1 ≤ lcd.height) (hw : lcd.width + 2 ≤ H.LINE_WIDTH)
    (hinc : lcd.entryModeFlags &&& H.LCD_CMD_ENTRY_MODE_INCREMENT ≠ 0)
    (hs : ∀ c ∈ s, c ≠ 0) (hn : (s.length : Int) ≤ lcd.width) :
    (∀ i : Nat, ∀ hi : i < s.length,
      readLine (writeString H (sendCommand H lcd LCD_CMD_CLEAR) s) 0 i = s[i]) ∧
    (writeString H (sendCommand H lcd LCD_CMD_CLEAR) s).ptr = s.length ∧
    readByte (writeString H (sendCommand H lcd LCD_CMD_CLEAR) s)
      = (writeString H (sendCommand H lcd LCD_CMD_CLEAR) s).data s.length ∧
    readByte (writeString H (sendCommand H lcd LCD_CMD_CLEAR) s) = 0 := by
  have hclear : sendCommand H lcd LCD_CMD_CLEAR =
      { lcd with data := memset lcd.data 0 ((lcd.width + 1) * lcd.height), ptr := 0 } := by
    simp [sendCommand, LCD_CMD_CLEAR, LCD_CMD_SET_DRAM_ADDR, LCD_CMD_SET_CGRAM_ADDR,
      LCD_CMD_SHIFT, LCD_CMD_DISPLAY, LCD_CMD_ENTRY_MODE, LCD_CMD_HOME]
  rw [writeString_eq_foldl H s hs, hclear]
  obtain ⟨h1, h2, -, h4, h5⟩ :=
    writeBytes_advance H s
      { lcd with data := memset lcd.data 0 ((lcd.width + 1) * lcd.height), ptr := 0 }
      hinc (by simp) (by simpa using hn) hw hh
  simp only [zero_add] at h1 h4 h5
  have hmul : lcd.width + 1 ≤ (lcd.width + 1) * lcd.height :=
    le_mul_of_one_le_right (by omega) hh
  refine ⟨?_, h1, ?_, ?_⟩
  · intro i hi
    simp only [readLine, h2, zero_mul, zero_add]
    exact h4 i hi
  · simp only [readByte, h1]
  · simp only [readByte, h1]
    rw [h5 _ (Or.inr (le_refl _))]
    have : (0 : Int) ≤ s.length := Int.ofNat_nonneg _
    simp only [memset]
    rw [if_pos ⟨this, by omega⟩]

theorem clear_write_read_witness :
    (∀ i : Nat, ∀ hi : i < [65, 66].length,
      readLine (writeString sampleHeader
        (sendCommand sampleHeader
          (sendCommand sampleHeader (newLCD sampleHeader zeroBlock 16 2) 0x06) LCD_CMD_CLEAR)
        [65, 66]) 0 i = [65, 66][i]) ∧
    (writeString sampleHeader
        (sendCommand sampleHeader
          (sendCommand sampleHeader (newLCD sampleHeader zeroBlock 16 2) 0x06) LCD_CMD_CLEAR)
        [65, 66]).ptr = ([65, 66] : List Nat).length ∧
    readByte (writeString sampleHeader
        (sendCommand sampleHeader
          (sendCommand sampleHeader (newLCD sampleHeader zeroBlock 16 2) 0x06) LCD_CMD_CLEAR)
        [65, 66])
      = (writeString sampleHeader
        (sendCommand sampleHeader
          (sendCommand sampleHeader (newLCD sampleHeader zeroBlock 16 2) 0x06) LCD_CMD_CLEAR)
        [65, 66]).data ([65, 66] : List Nat).length ∧
    readByte (writeString sampleHeader
        (sendCommand sampleHeader
          (sendCommand sampleHeader (newLCD sampleHeader zeroBlock 16 2) 0x06) LCD_CMD_CLEAR)
        [65, 66]) = 0 :=
  clear_write_read sampleHeader
    (sendCommand sampleHeader (newLCD sampleHeader zeroBlock 16 2) 0x06) [65, 66]
    (by decide) (by decide) (by decide) (by decide) (by decide)

/-- C15 (the code at the failing input): `newLCD(16, 2)` leaves `entryModeFlags`
as `malloc` returned it; when that byte has INCREMENT clear (here a zero block),
after `sendCommand(0x01)` and `writeString("Hi")` the cursor offset is still 0
and `readLine(0)` holds 'i' followed by NUL, not 'H','i'. -/
theorem scenario_F_without_entry_mode :
    (writeString sampleHeader
      (sendCommand sampleHeader (newLCD sampleHeader zeroBlock 16 2) 0x01) [72, 105]).ptr = 0 ∧
    readLine (writeString sampleHeader
      (sendCommand sampleHeader (newLCD sampleHeader zeroBlock 16 2) 0x01) [72, 105]) 0 0
      = 105 ∧
    readLine (writeString sampleHeader
      (sendCommand sampleHeader (newLCD sampleHeader zeroBlock 16 2) 0x01) [72, 105]) 0 1
      = 0 := by
  decide

/-! ## The cursor stays in DDRAM when `width + 1 <= LINE_WIDTH` -/

theorem cursorOk_sendCommand (H : Header) (lcd : LCD) (command : Nat)
    (h : CursorOk H lcd) : CursorOk H (sendCommand H lcd command) := by
  obtain ⟨hh, hw, hL, hp0, hp1⟩ := h
  have hc : 0 ≤ ((command &&& 0x7f : Nat) : Int) := Int.ofNat_nonneg _
  have hpos : 0 < H.LINE_WIDTH * lcd.height := Int.mul_pos (by omega) (by omega)
  unfold sendCommand CursorOk
  dsimp only
  split_ifs <;> (try dsimp only) <;> refine ⟨hh, hw, hL, ?_, ?_⟩ <;> omega

theorem cursorOk_writeByte (H : Header) (lcd : LCD) (b : Nat)
    (h : CursorOk H lcd) : CursorOk H (writeByte H lcd b) := by
  obtain ⟨hh, hw, hL, hp0, hp1⟩ := h
  have hpos : 0 < H.LINE_WIDTH * lcd.height := Int.mul_pos (by omega) (by omega)
  have hle : (lcd.width + 1) * lcd.height ≤ H.LINE_WIDTH * lcd.height :=
    mul_le_mul_of_nonneg_right hL (by omega)
  unfold writeByte increment CursorOk
  dsimp only
  split_ifs <;> (try dsimp only) <;> refine ⟨hh, hw, hL, ?_, ?_⟩ <;> omega

theorem cursorOk_writeString (H : Header) (s : List Nat) :
    ∀ lcd : LCD, CursorOk H lcd → CursorOk H (writeString H lcd s) := by
  induction s with
  | nil => intro lcd h; exact h
  | cons c rest ih =>
    intro lcd h
    unfold writeString
    split_ifs
    · exact h
    · exact ih _ (cursorOk_writeByte H lcd c h)

theorem cursorOk_run (H : Header) (ops : List Op) :
    ∀ lcd : LCD, CursorOk H lcd → CursorOk H (run H lcd ops) := by
  induction ops with
  | nil => intro lcd h; exact h
  | cons op rest ih =>
    intro lcd h
    simp only [run, List.foldl_cons]
    apply ih
    cases op with
    | command c => exact cursorOk_sendCommand H lcd c h
    | write b => exact cursorOk_writeByte H lcd b h
    | writeStr s => exact cursorOk_writeString H s lcd h

theorem newLCD_fields (H : Header) (raw : LCD) (width height : Int) (hh : height ≤ 4) :
    (newLCD H raw width height).width = width ∧
    (newLCD H raw width height).height = height ∧
    (newLCD H raw width height).ptr = 0 ∧
    (newLCD H raw width height).pixelsWidth = width * 6 - 1 ∧
    (newLCD H raw width height).pixelsHeight = height * 9 - 1 ∧
    (newLCD H raw width height).numPixels = (width * 6 - 1) * (height * 9 - 1) ∧
    (newLCD H raw width height).entryModeFlags = raw.entryModeFlags := by
  have h4 : ¬ height > 4 := by omega
  simp [newLCD, updatePixels, h4, CHAR_WIDTH, CHAR_HEIGHT]

/-- When `width + 1 <= LINE_WIDTH`, the cursor of an LCD made by `newLCD` stays
inside DDRAM through every sequence of calls. -/
theorem cursor_in_ddram_of_room (H : Header) (raw : LCD) (width height : Int)
    (ops : List Op) (hh1 : 1 ≤ height) (hh4 : height ≤ 4) (hw1 : 1 ≤ width)
    (hwL : width + 1 ≤ H.LINE_WIDTH) :
    0 ≤ (run H (newLCD H raw width height) ops).ptr ∧
    (run H (newLCD H raw width height) ops).ptr
      < H.LINE_WIDTH * (run H (newLCD H raw width height) ops).height := by
  obtain ⟨f1, f2, f3, -⟩ := newLCD_fields H raw width height hh4
  have h0 : CursorOk H (newLCD H raw width height) := by
    refine ⟨by omega, by omega, by omega, by omega, ?_⟩
    rw [f2, f3]
    exact Int.mul_pos (by omega) (by omega)
  exact (cursorOk_run H ops _ h0).2.2.2

/-! ## Pixels -/

/-- C16 (the code at the failing input): on the LCD `newLCD(16, 2)`, whose pixel
buffer is 95 wide and 17 high, the query `pixelState(95, 0)` has x out of range
but the offset `0 * 95 + 95` inside the buffer: it returns the pixel at x = 0,
y = 1, which is 0, not -1. -/
theorem pixelState_column_out_of_range :
    (newLCD sampleHeader zeroBlock 16 2).pixelsWidth = 95 ∧
    (newLCD sampleHeader zeroBlock 16 2).pixelsHeight = 17 ∧
    pixelState (newLCD sampleHeader zeroBlock 16 2) 95 0 = 0 ∧
    pixelState (newLCD sampleHeader zeroBlock 16 2) 95 0
      = pixelState (newLCD sampleHeader zeroBlock 16 2) 0 1 := by
  decide

theorem foldl_store_spec {ι : Type} (l : List ι) (f : (Int → Int) → ι → (Int → Int))
    (hit : ι → Int → Bool) (g : Int → Int)
    (hf : ∀ i ∈ l, ∀ m p, f m i p = if hit i p then g p else m p) :
    ∀ m p, l.foldl f m p = if l.any (fun i => hit i p) then g p else m p := by
  induction l with
  | nil => intro m p; simp
  | cons a rest ih =>
    intro m p
    have ih2 := ih (fun i hi => hf i (List.mem_cons_of_mem _ hi)) (f m a) p
    rw [List.foldl_cons, ih2, hf a (List.mem_cons_self _ _) m p]
    simp only [List.any_cons]
    by_cases h1 : hit a p = true <;> by_cases h2 : (rest.any fun i => hit i p) = true <;>
      simp [h1, h2]

theorem cellOffset_eq (lcd : LCD) (row col y x : Nat) :
    cellOffset lcd row col y x
      = ((col : Int) * 6 + (x : Int)) + ((row : Int) * 9 + (y : Int)) * lcd.pixelsWidth := by
  simp only [cellOffset, CHAR_HEIGHT, CHAR_WIDTH]
  ring

theorem cellOffset_div_mod (lcd : LCD) (row col y x : Nat)
    (hpw : lcd.pixelsWidth = lcd.width * 6 - 1) (hcol : (col : Int) < lcd.width)
    (hx : x < 5) :
    cellOffset lcd row col y x / lcd.pixelsWidth = (row : Int) * 9 + (y : Int) ∧
    cellOffset lcd row col y x % lcd.pixelsWidth = (col : Int) * 6 + (x : Int) := by
  have h0 : 0 ≤ (col : Int) * 6 + (x : Int) := by omega
  have h1 : (col : Int) * 6 + (x : Int) < lcd.pixelsWidth := by omega
  have hne : lcd.pixelsWidth ≠ 0 := by omega
  rw [cellOffset_eq]
  constructor
  · rw [Int.add_mul_ediv_right _ _ hne, Int.ediv_eq_zero_of_lt h0 h1, zero_add]
  · rw [Int.add_mul_emod_self, Int.emod_eq_of_lt h0 h1]

theorem glyphAt_cellOffset (lcd : LCD) (row col y x : Nat)
    (hpw : lcd.pixelsWidth = lcd.width * 6 - 1) (hcol : (col : Int) < lcd.width)
    (hy : y < 8) (hx : x < 5) :
    glyphAt lcd (cellOffset lcd row col y x) = glyphPixel lcd row col y x := by
  obtain ⟨hd, hm⟩ := cellOffset_div_mod lcd row col y x hpw hcol hx
  have e1 : (((row : Int) * 9 + (y : Int)) / 9).toNat = row := by
    have : ((row : Int) * 9 + (y : Int)) / 9 = (row : Int) := by omega
    rw [this, Int.toNat_natCast]
  have e2 : (((row : Int) * 9 + (y : Int)) % 9).toNat = y := by
    have : ((row : Int) * 9 + (y : Int)) % 9 = (y : Int) := by omega
    rw [this, Int.toNat_natCast]
  have e3 : (((col : Int) * 6 + (x : Int)) / 6).toNat = col := by
    have : ((col : Int) * 6 + (x : Int)) / 6 = (col : Int) := by omega
    rw [this, Int.toNat_natCast]
  have e4 : (((col : Int) * 6 + (x : Int)) % 6).toNat = x := by
    have : ((col : Int) * 6 + (x : Int)) % 6 = (x : Int) := by omega
    rw [this, Int.toNat_natCast]
  simp only [glyphAt, hd, hm, e1, e2, e3, e4]

theorem isGlyphOffset_iff (lcd : LCD) (p : Int) :
    isGlyphOffset lcd p = true ↔
      ∃ row col y x : Nat, (row : Int) < lcd.height ∧ (col : Int) < lcd.width ∧ y < 8 ∧ x < 5 ∧
        p = cellOffset lcd row col y x := by
  simp only [isGlyphOffset, List.any_eq_true, List.mem_range, decide_eq_true_eq, CHAR_HEIGHT,
    CHAR_WIDTH]
  constructor
  · rintro ⟨row, hrow, col, hcol, y, hy, x, hx, hp⟩
    exact ⟨row, col, y, x, by omega, by omega, by simpa using hy, by simpa using hx, hp⟩
  · rintro ⟨row, col, y, x, hrow, hcol, hy, hx, hp⟩
    exact ⟨row, by omega, col, by omega, y, by simpa using hy, x, by simpa using hx, hp⟩

theorem drawChar_spec (lcd : LCD) (row col : Nat)
    (hpw : lcd.pixelsWidth = lcd.width * 6 - 1) (hcol : (col : Int) < lcd.width) :
    ∀ m p, drawChar lcd row col m p =
      if ((List.range CHAR_HEIGHT.toNat).any fun y =>
          (List.range CHAR_WIDTH.toNat).any fun x =>
            decide (p = cellOffset lcd row col y x))
      then glyphAt lcd p else m p := by
  unfold drawChar
  apply foldl_store_spec _ _
    (fun y p => (List.range CHAR_WIDTH.toNat).any fun x =>
      decide (p = cellOffset lcd row col y x)) (glyphAt lcd)
  intro y hy m p
  apply foldl_store_spec _ _ (fun x p => decide (p = cellOffset lcd row col y x)) (glyphAt lcd)
  intro x hx m p
  have hy8 : y < 8 := by simpa [CHAR_HEIGHT] using hy
  have hx5 : x < 5 := by simpa [CHAR_WIDTH] using hx
  by_cases hp : p = cellOffset lcd row col y x
  · subst hp
    rw [glyphAt_cellOffset lcd row col y x hpw hcol hy8 hx5]
    simp [store, cellOffset, glyphPixel]
  · have hp2 : ¬ p = (row : Int) * (CHAR_HEIGHT + 1) * lcd.pixelsWidth
        + (col : Int) * (CHAR_WIDTH + 1) + (y : Int) * lcd.pixelsWidth + (x : Int) := hp
    simp [store, hp, hp2]

theorem updatePixels_spec (lcd : LCD) (hpw : lcd.pixelsWidth = lcd.width * 6 - 1) (p : Int) :
    (updatePixels lcd).pixels p =
      if isGlyphOffset lcd p then glyphAt lcd p else lcd.pixels p := by
  unfold updatePixels isGlyphOffset
  dsimp only
  apply foldl_store_spec _ _
    (fun row p => (List.range lcd.width.toNat).any fun col =>
      (List.range CHAR_HEIGHT.toNat).any fun y =>
        (List.range CHAR_WIDTH.toNat).any fun x =>
          decide (p = cellOffset lcd row col y x)) (glyphAt lcd)
  intro row _ m p
  apply foldl_store_spec _ _
    (fun col p => (List.range CHAR_HEIGHT.toNat).any fun y =>
        (List.range CHAR_WIDTH.toNat).any fun x =>
          decide (p = cellOffset lcd row col y x)) (glyphAt lcd)
  intro col hcol m p
  have hc : (col : Int) < lcd.width := by
    have := List.mem_range.mp hcol
    omega
  exact drawChar_spec lcd row col hpw hc m p

/-- The fields that `sendCommand`, `writeByte` and `writeString` never assign. -/
theorem sendCommand_frame (H : Header) (lcd : LCD) (c : Nat) :
    (sendCommand H lcd c).width = lcd.width ∧ (sendCommand H lcd c).height = lcd.height ∧
    (sendCommand H lcd c).pixelsWidth = lcd.pixelsWidth ∧
    (sendCommand H lcd c).pixelsHeight = lcd.pixelsHeight ∧
    (sendCommand H lcd c).numPixels = lcd.numPixels ∧
    (sendCommand H lcd c).pixels = lcd.pixels := by
  unfold sendCommand
  dsimp only
  split_ifs <;> exact ⟨rfl, rfl, rfl, rfl, rfl, rfl⟩

theorem writeByte_frame (H : Header) (lcd : LCD) (b : Nat) :
    (writeByte H lcd b).width = lcd.width ∧ (writeByte H lcd b).height = lcd.height ∧
    (writeByte H lcd b).pixelsWidth = lcd.pixelsWidth ∧
    (writeByte H lcd b).pixelsHeight = lcd.pixelsHeight ∧
    (writeByte H lcd b).numPixels = lcd.numPixels ∧
    (writeByte H lcd b).pixels = lcd.pixels := by
  unfold writeByte increment
  dsimp only
  split_ifs <;> exact ⟨rfl, rfl, rfl, rfl, rfl, rfl⟩

theorem writeString_frame (H : Header) (s : List Nat) :
    ∀ lcd : LCD,
    (writeString H lcd s).width = lcd.width ∧ (writeString H lcd s).height = lcd.height ∧
    (writeString H lcd s).pixelsWidth = lcd.pixelsWidth ∧
    (writeString H lcd s).pixelsHeight = lcd.pixelsHeight ∧
    (writeString H lcd s).numPixels = lcd.numPixels ∧
    (writeString H lcd s).pixels = lcd.pixels := by
  induction s with
  | nil => intro lcd; exact ⟨rfl, rfl, rfl, rfl, rfl, rfl⟩
  | cons c rest ih =>
    intro lcd
    unfold writeString
    split_ifs
    · exact ⟨rfl, rfl, rfl, rfl, rfl, rfl⟩
    · obtain ⟨a1, a2, a3, a4, a5, a6⟩ := ih (writeByte H lcd c)
      obtain ⟨b1, b2, b3, b4, b5, b6⟩ := writeByte_frame H lcd c
      exact ⟨a1.trans b1, a2.trans b2, a3.trans b3, a4.trans b4, a5.trans b5, a6.trans b6⟩

theorem run_frame (H : Header) (ops : List Op) :
    ∀ lcd : LCD,
    (run H lcd ops).width = lcd.width ∧ (run H lcd ops).height = lcd.height ∧
    (run H lcd ops).pixelsWidth = lcd.pixelsWidth ∧
    (run H lcd ops).pixelsHeight = lcd.pixelsHeight ∧
    (run H lcd ops).numPixels = lcd.numPixels ∧
    (run H lcd ops).pixels = lcd.pixels := by
  induction ops with
  | nil => intro lcd; exact ⟨rfl, rfl, rfl, rfl, rfl, rfl⟩
  | cons op rest ih =>
    intro lcd
    simp only [run, List.foldl_cons]
    obtain ⟨a1, a2, a3, a4, a5, a6⟩ := ih (step H lcd op)
    have hstep : (step H lcd op).width = lcd.width ∧ (step H lcd op).height = lcd.height ∧
        (step H lcd op).pixelsWidth = lcd.pixelsWidth ∧
        (step H lcd op).pixelsHeight = lcd.pixelsHeight ∧
        (step H lcd op).numPixels = lcd.numPixels ∧
        (step H lcd op).pixels = lcd.pixels := by
      cases op with
      | command c => exact sendCommand_frame H lcd c
      | write b => exact writeByte_frame H lcd b
      | writeStr s => exact writeString_frame H s lcd
    obtain ⟨b1, b2, b3, b4, b5, b6⟩ := hstep
    exact ⟨a1.trans b1, a2.trans b2, a3.trans b3, a4.trans b4, a5.trans b5, a6.trans b6⟩

theorem not_isGlyphOffset_of_gap (lcd : LCD) (x y : Int)
    (hpw : lcd.pixelsWidth = lcd.width * 6 - 1)
    (hx0 : 0 ≤ x) (hx1 : x < lcd.pixelsWidth)
    (hgap : x % 6 = 5 ∨ y % 9 = 8) :
    isGlyphOffset lcd (y * lcd.pixelsWidth + x) = false := by
  rw [Bool.eq_false_iff]
  intro h
  obtain ⟨row, col, y2, x2, -, hcol, hy, hx, hp⟩ := (isGlyphOffset_iff lcd _).mp h
  obtain ⟨hd, hm⟩ := cellOffset_div_mod lcd row col y2 x2 hpw hcol hx
  have hne : lcd.pixelsWidth ≠ 0 := by omega
  have e : y * lcd.pixelsWidth + x = x + y * lcd.pixelsWidth := by ring
  rw [← hp, e] at hd hm
  rw [Int.add_mul_ediv_right _ _ hne, Int.ediv_eq_zero_of_lt hx0 hx1, zero_add] at hd
  rw [Int.add_mul_emod_self, Int.emod_eq_of_lt hx0 hx1] at hm
  omega

theorem newLCD_pixels (H : Header) (raw : LCD) (width height : Int) (hh : height ≤ 4)
    (p : Int) :
    (newLCD H raw width height).pixels p =
      if isGlyphOffset (newLCD H raw width height) p then
        glyphAt (newLCD H raw width height) p
      else if 0 ≤ p ∧ p < (width * 6 - 1) * (height * 9 - 1) then -1 else raw.pixels p := by
  have h4 : ¬ height > 4 := by omega
  unfold newLCD
  simp only [h4, if_false, CHAR_WIDTH, CHAR_HEIGHT]
  rw [updatePixels_spec _ (by norm_num)]
  simp only [memset, isGlyphOffset, glyphAt, glyphPixel, cellOffset, updatePixels]
  norm_num

theorem charBits_space (x : Nat) : (charBits 32).getD x 0 = 0 := by
  have h : charBits 32 = [0, 0, 0, 0, 0] := by decide
  rw [h]
  match x with
  | 0 | 1 | 2 | 3 | 4 => rfl
  | n + 5 => rfl

theorem lcd_font_rows : lcd_font.length = 128 ∧ ∀ g ∈ lcd_font, g.length = 5 := by
  decide

theorem charBits_eq_font (c : Nat) :
    charBits c = lcd_font.getD (if c < 128 then c else 0) [] := by
  unfold charBits
  split_ifs <;> rfl

theorem charBits_length (c : Nat) : (charBits c).length = 5 := by
  have hlen : ∀ i, i < 128 → (lcd_font.getD i []).length = 5 := by
    intro i hi
    have hi2 : i < lcd_font.length := by rw [lcd_font_rows.1]; exact hi
    rw [List.getD_eq_getElem _ _ hi2]
    exact lcd_font_rows.2 _ (List.getElem_mem _)
  rw [charBits_eq_font]
  split_ifs with h
  · exact hlen c h
  · exact hlen 0 (by decide)

/-- C17: for every LCD created by `newLCD` with 1 <= height <= 4 and
width + 1 <= LINE_WIDTH, in any state reached by `sendCommand` / `writeByte` /
`writeString`, after `updatePixels`: for all row < height, col < width, x < 5,
y < 8, `pixelState(col*6 + x, row*9 + y)` is 1 if bit `0x80 >> y` of `font[c][x]`
is set and 0 otherwise, where `font` is the table `lcd_font` of the source, c is
the DDRAM byte at offset `row*(width+1) + col`, and bytes >= 128 use glyph 0;
every in-range pixel in a gap (x mod 6 = 5 or y mod 9 = 8) is -1; and a cell
holding a space (ASCII 32) has all its glyph pixels equal to 0.  The glyph
`charBits` hands to `updatePixels` is the 5-byte row `font[c]` of the table for
c < 128 and the row `font[0]` otherwise. -/
theorem rasterisation (H : Header) (raw : LCD) (width height : Int) (ops : List Op)
    (hh1 : 1 ≤ height) (hh4 : height ≤ 4) (_hroom : width + 1 ≤ H.LINE_WIDTH) :
    (∀ row col x y : Nat, (row : Int) < height → (col : Int) < width → x < 5 → y < 8 →
      pixelState (updatePixels (run H (newLCD H raw width height) ops))
          ((col : Int) * 6 + (x : Int)) ((row : Int) * 9 + (y : Int))
        = (if (lcd_font.getD
                (if (run H (newLCD H raw width height) ops).data
                      ((row : Int) * (width + 1) + (col : Int)) < 128
                  then (run H (newLCD H raw width height) ops).data
                      ((row : Int) * (width + 1) + (col : Int))
                  else 0) []).getD x 0
              &&& (0x80 >>> y) ≠ 0 then 1 else 0) ∧
      ((run H (newLCD H raw width height) ops).data
          ((row : Int) * (width + 1) + (col : Int)) = 32 →
        pixelState (updatePixels (run H (newLCD H raw width height) ops))
          ((col : Int) * 6 + (x : Int)) ((row : Int) * 9 + (y : Int)) = 0)) ∧
    (∀ x y : Int, 0 ≤ x → x < (newLCD H raw width height).pixelsWidth →
      0 ≤ y → y < (newLCD H raw width height).pixelsHeight →
      (x % 6 = 5 ∨ y % 9 = 8) →
      pixelState (updatePixels (run H (newLCD H raw width height) ops)) x y = -1) ∧
    (∀ c : Nat, charBits c = lcd_font.getD (if c < 128 then c else 0) [] ∧
      (charBits c).length = 5) := by
  obtain ⟨n1, n2, -, n4, n5, n6, -⟩ := newLCD_fields H raw width height hh4
  obtain ⟨r1, r2, r3, r4, r5, r6⟩ := run_frame H ops (newLCD H raw width height)
  have hpw : (run H (newLCD H raw width height) ops).pixelsWidth
      = (run H (newLCD H raw width height) ops).width * 6 - 1 := by
    rw [r3, r1, n4, n1]
  have hpw0 : (newLCD H raw width height).pixelsWidth
      = (newLCD H raw width height).width * 6 - 1 := by
    rw [n4, n1]
  have hfields : (updatePixels (run H (newLCD H raw width height) ops)).pixelsWidth
        = width * 6 - 1 ∧
      (updatePixels (run H (newLCD H raw width height) ops)).numPixels
        = (width * 6 - 1) * (height * 9 - 1) := by
    simp only [updatePixels, r3, r5, n4, n6, and_self]
  obtain ⟨u1, u2⟩ := hfields
  refine ⟨?_, ?_, fun c => ⟨charBits_eq_font c, charBits_length c⟩⟩
  · intro row col x y hrow hcol hx hy
    have hval : pixelState (updatePixels (run H (newLCD H raw width height) ops))
          ((col : Int) * 6 + (x : Int)) ((row : Int) * 9 + (y : Int))
        = glyphPixel (run H (newLCD H raw width height) ops) row col y x := by
      have hcol2 : (col : Int) < (run H (newLCD H raw width height) ops).width := by
        rw [r1, n1]; exact hcol
      have hoff : ((row : Int) * 9 + (y : Int)) * (width * 6 - 1) + ((col : Int) * 6 + (x : Int))
          = cellOffset (run H (newLCD H raw width height) ops) row col y x := by
        rw [cellOffset_eq, r3, n4]; ring
      have hlo : 0 ≤ ((row : Int) * 9 + (y : Int)) * (width * 6 - 1)
          + ((col : Int) * 6 + (x : Int)) := by
        have : 0 ≤ ((row : Int) * 9 + (y : Int)) * (width * 6 - 1) :=
          Int.mul_nonneg (by omega) (by omega)
        omega
      have hhi : ((row : Int) * 9 + (y : Int)) * (width * 6 - 1)
          + ((col : Int) * 6 + (x : Int)) < (width * 6 - 1) * (height * 9 - 1) := by
        have h1 : ((row : Int) * 9 + (y : Int) + 1) * (width * 6 - 1)
            ≤ (height * 9 - 1) * (width * 6 - 1) :=
          Int.mul_le_mul_of_nonneg_right (by omega) (by omega)
        have h2 : ((row : Int) * 9 + (y : Int) + 1) * (width * 6 - 1)
            = ((row : Int) * 9 + (y : Int)) * (width * 6 - 1) + (width * 6 - 1) := by ring
        have h3 : (height * 9 - 1) * (width * 6 - 1) = (width * 6 - 1) * (height * 9 - 1) := by
          ring
        omega
      simp only [pixelState, u1, u2, ge_iff_le, hlo, hhi, and_self, if_true]
      rw [hoff, updatePixels_spec _ hpw]
      have hin : isGlyphOffset (run H (newLCD H raw width height) ops)
          (cellOffset (run H (newLCD H raw width height) ops) row col y x) = true :=
        (isGlyphOffset_iff _ _).mpr ⟨row, col, y, x, by rw [r2, n2]; exact hrow, hcol2, hy, hx, rfl⟩
      rw [hin, if_pos rfl]
      exact glyphAt_cellOffset _ row col y x hpw hcol2 hy hx
    constructor
    · rw [hval]
      simp only [glyphPixel, r1, n1, charBits_eq_font]
    · intro hspace
      rw [hval]
      simp only [glyphPixel, r1, n1, hspace, charBits_space, Nat.zero_and, ne_eq,
        not_true_eq_false, if_false]
  · intro x y hx0 hx1 hy0 hy1 hgap
    rw [n4] at hx1
    rw [n5] at hy1
    have hlo : 0 ≤ y * (width * 6 - 1) + x := by
      have : 0 ≤ y * (width * 6 - 1) := Int.mul_nonneg hy0 (by omega)
      omega
    have hhi : y * (width * 6 - 1) + x < (width * 6 - 1) * (height * 9 - 1) := by
      have h1 : (y + 1) * (width * 6 - 1) ≤ (height * 9 - 1) * (width * 6 - 1) :=
        Int.mul_le_mul_of_nonneg_right (by omega) (by omega)
      have h2 : (y + 1) * (width * 6 - 1) = y * (width * 6 - 1) + (width * 6 - 1) := by ring
      have h3 : (height * 9 - 1) * (width * 6 - 1) = (width * 6 - 1) * (height * 9 - 1) := by
        ring
      omega
    simp only [pixelState, u1, u2, ge_iff_le, hlo, hhi, and_self, if_true]
    have g1 := not_isGlyphOffset_of_gap (run H (newLCD H raw width height) ops) x y hpw hx0
      (by rw [r3, n4]; exact hx1) hgap
    have g0 := not_isGlyphOffset_of_gap (newLCD H raw width height) x y hpw0 hx0
      (by rw [n4]; exact hx1) hgap
    rw [r3, n4] at g1
    rw [n4] at g0
    rw [updatePixels_spec _ hpw, g1, r6, newLCD_pixels H raw width height hh4, g0]
    simp only [Bool.false_eq_true, if_false, hlo, hhi, and_self, if_true]

theorem rasterisation_witness :
    pixelState (updatePixels (run sampleHeader (newLCD sampleHeader zeroBlock 16 2)
        [Op.command 0x06, Op.write 72, Op.write 32, Op.write 200])) 0 0 = 1 ∧
    pixelState (updatePixels (run sampleHeader (newLCD sampleHeader zeroBlock 16 2)
        [Op.command 0x06, Op.write 72, Op.write 32, Op.write 200])) 1 0 = 0 ∧
    pixelState (updatePixels (run sampleHeader (newLCD sampleHeader zeroBlock 16 2)
        [Op.command 0x06, Op.write 72, Op.write 32, Op.write 200])) 1 3 = 1 ∧
    pixelState (updatePixels (run sampleHeader (newLCD sampleHeader zeroBlock 16 2)
        [Op.command 0x06, Op.write 72, Op.write 32, Op.write 200])) 4 7 = 0 ∧
    pixelState (updatePixels (run sampleHeader (newLCD sampleHeader zeroBlock 16 2)
        [Op.command 0x06, Op.write 72, Op.write 32, Op.write 200])) 8 2 = 0 ∧
    pixelState (updatePixels (run sampleHeader (newLCD sampleHeader zeroBlock 16 2)
        [Op.command 0x06, Op.write 72, Op.write 32, Op.write 200])) 14 5 = 0 ∧
    pixelState (updatePixels (run sampleHeader (newLCD sampleHeader zeroBlock 16 2)
        [Op.command 0x06, Op.write 72, Op.write 32, Op.write 200])) 5 0 = -1 ∧
    pixelState (updatePixels (run sampleHeader (newLCD sampleHeader zeroBlock 16 2)
        [Op.command 0x06, Op.write 72, Op.write 32, Op.write 200])) 0 8 = -1 ∧
    charBits 72 = [0xfe, 0x10, 0x10, 0x10, 0xfe] ∧
    charBits 200 = [0x00, 0x00, 0x00, 0x00, 0x00] :=
  have h := rasterisation sampleHeader zeroBlock 16 2
    [Op.command 0x06, Op.write 72, Op.write 32, Op.write 200] (by decide) (by decide) (by decide)
  ⟨((h.1 0 0 0 0 (by decide) (by decide) (by decide) (by decide)).1).trans (by decide),
   ((h.1 0 0 1 0 (by decide) (by decide) (by decide) (by decide)).1).trans (by decide),
   ((h.1 0 0 1 3 (by decide) (by decide) (by decide) (by decide)).1).trans (by decide),
   ((h.1 0 0 4 7 (by decide) (by decide) (by decide) (by decide)).1).trans (by decide),
   (h.1 0 1 2 2 (by decide) (by decide) (by decide) (by decide)).2 (by decide),
   ((h.1 0 2 2 5 (by decide) (by decide) (by decide) (by decide)).1).trans (by decide),
   h.2.1 5 0 (by decide) (by decide) (by decide) (by decide) (Or.inl (by decide)),
   h.2.1 0 8 (by decide) (by decide) (by decide) (by decide) (Or.inr (by decide)),
   (h.2.2 72).1.trans (by decide),
   (h.2.2 200).1.trans (by decide)⟩

/-! ## Cursor wrap and CLEAR -/

/-- C22 (as stated, refuted): with `LINE_WIDTH = 40`, on a 16x2 LCD whose entry
mode has INCREMENT set and whose cursor is at offset 33, the advanced offset 34 is
below `LINE_WIDTH * height = 80`, yet after `writeByte` the cursor is 0, not 34. -/
theorem cursor_wraps_before_end_of_ddram :
    (sendCommand sampleHeader (sendCommand sampleHeader (newLCD sampleHeader zeroBlock 16 2) 0x06)
        (0x80 ||| 33)).entryModeFlags &&& sampleHeader.LCD_CMD_ENTRY_MODE_INCREMENT ≠ 0 ∧
    (sendCommand sampleHeader (sendCommand sampleHeader (newLCD sampleHeader zeroBlock 16 2) 0x06)
        (0x80 ||| 33)).ptr = 33 ∧
    ¬ ((33 : Int) + 1 + 1) % sampleHeader.LINE_WIDTH = 0 ∧
    (33 : Int) + 1 < sampleHeader.LINE_WIDTH *
      (sendCommand sampleHeader (sendCommand sampleHeader (newLCD sampleHeader zeroBlock 16 2) 0x06)
        (0x80 ||| 33)).height ∧
    (writeByte sampleHeader
      (sendCommand sampleHeader (sendCommand sampleHeader (newLCD sampleHeader zeroBlock 16 2) 0x06)
        (0x80 ||| 33)) 65).ptr = 0 := by
  decide

/-- C22 (amended): for every LCD whose entry mode has INCREMENT set and whose
cursor is at offset o, after `writeByte` the cursor is reset to 0 if the advanced
offset (o + 1, or o + 2 when `(o + 2) mod LINE_WIDTH = 0`) has reached
`(width + 1) * height`; otherwise the cursor is that advanced offset. -/
theorem cursor_wrap (H : Header) (lcd : LCD) (b : Nat)
    (hinc : lcd.entryModeFlags &&& H.LCD_CMD_ENTRY_MODE_INCREMENT ≠ 0) :
    (writeByte H lcd b).ptr =
      (if (if (lcd.ptr + 2) % H.LINE_WIDTH = 0 then lcd.ptr + 2 else lcd.ptr + 1)
            ≥ (lcd.width + 1) * lcd.height then 0
        else (if (lcd.ptr + 2) % H.LINE_WIDTH = 0 then lcd.ptr + 2 else lcd.ptr + 1)) := by
  have e : lcd.ptr + 1 + 1 = lcd.ptr + 2 := by ring
  simp only [writeByte, increment, hinc, ne_eq, not_false_eq_true, if_true, e]

theorem cursor_wrap_witness :
    (sendCommand sampleHeader (newLCD sampleHeader zeroBlock 16 2) 0x06).entryModeFlags
      &&& sampleHeader.LCD_CMD_ENTRY_MODE_INCREMENT ≠ 0 ∧
    (writeByte sampleHeader (sendCommand sampleHeader (newLCD sampleHeader zeroBlock 16 2) 0x06)
        65).ptr =
      (if (if ((sendCommand sampleHeader (newLCD sampleHeader zeroBlock 16 2) 0x06).ptr + 2)
                % sampleHeader.LINE_WIDTH = 0
              then (sendCommand sampleHeader (newLCD sampleHeader zeroBlock 16 2) 0x06).ptr + 2
              else (sendCommand sampleHeader (newLCD sampleHeader zeroBlock 16 2) 0x06).ptr + 1)
            ≥ ((sendCommand sampleHeader (newLCD sampleHeader zeroBlock 16 2) 0x06).width + 1)
              * (sendCommand sampleHeader (newLCD sampleHeader zeroBlock 16 2) 0x06).height
        then 0
        else (if ((sendCommand sampleHeader (newLCD sampleHeader zeroBlock 16 2) 0x06).ptr + 2)
                % sampleHeader.LINE_WIDTH = 0
              then (sendCommand sampleHeader (newLCD sampleHeader zeroBlock 16 2) 0x06).ptr + 2
              else (sendCommand sampleHeader (newLCD sampleHeader zeroBlock 16 2) 0x06).ptr + 1)) :=
  ⟨by decide,
    cursor_wrap sampleHeader (sendCommand sampleHeader (newLCD sampleHeader zeroBlock 16 2) 0x06)
      65 (by decide)⟩

/-- C23: `sendCommand(0x01)` (CLEAR) sets the cursor offset to 0, sets every DDRAM
byte at offsets 0 .. (width+1)*height - 1 to 0, and leaves the DDRAM bytes at
offsets >= (width+1)*height, the entry-mode byte and the display-flags byte
unchanged. -/
theorem sendCommand_clear (H : Header) (lcd : LCD) :
    (sendCommand H lcd 0x01).ptr = 0 ∧
    (∀ i : Int, 0 ≤ i → i < (lcd.width + 1) * lcd.height → (sendCommand H lcd 0x01).data i = 0) ∧
    (∀ i : Int, (lcd.width + 1) * lcd.height ≤ i →
      (sendCommand H lcd 0x01).data i = lcd.data i) ∧
    (sendCommand H lcd 0x01).entryModeFlags = lcd.entryModeFlags ∧
    (sendCommand H lcd 0x01).displayFlags = lcd.displayFlags := by
  have hclear : sendCommand H lcd 0x01 =
      { lcd with data := memset lcd.data 0 ((lcd.width + 1) * lcd.height), ptr := 0 } := by
    simp [sendCommand, LCD_CMD_CLEAR, LCD_CMD_SET_DRAM_ADDR, LCD_CMD_SET_CGRAM_ADDR,
      LCD_CMD_SHIFT, LCD_CMD_DISPLAY, LCD_CMD_ENTRY_MODE, LCD_CMD_HOME]
  rw [hclear]
  refine ⟨rfl, ?_, ?_, rfl, rfl⟩
  · intro i h0 h1
    simp only [memset, h0, h1, and_self, if_true]
  · intro i h
    have : ¬ (0 ≤ i ∧ i < (lcd.width + 1) * lcd.height) := by omega
    simp only [memset, this, if_false]

theorem sendCommand_clear_witness :
    (sendCommand sampleHeader (newLCD sampleHeader zeroBlock 16 2) 0x01).ptr = 0 ∧
    ((0 : Int) ≤ 3 ∧
      (3 : Int) < ((newLCD sampleHeader zeroBlock 16 2).width + 1)
        * (newLCD sampleHeader zeroBlock 16 2).height ∧
      (sendCommand sampleHeader (newLCD sampleHeader zeroBlock 16 2) 0x01).data 3 = 0) ∧
    (((newLCD sampleHeader zeroBlock 16 2).width + 1) * (newLCD sampleHeader zeroBlock 16 2).height
        ≤ (50 : Int) ∧
      (sendCommand sampleHeader (newLCD sampleHeader zeroBlock 16 2) 0x01).data 50
        = (newLCD sampleHeader zeroBlock 16 2).data 50) :=
  ⟨(sendCommand_clear sampleHeader (newLCD sampleHeader zeroBlock 16 2)).1,
   ⟨by decide, by decide,
    (sendCommand_clear sampleHeader (newLCD sampleHeader zeroBlock 16 2)).2.1 3 (by decide)
      (by decide)⟩,
   ⟨by decide,
    (sendCommand_clear sampleHeader (newLCD sampleHeader zeroBlock 16 2)).2.2.1 50 (by decide)⟩⟩

end Lcd
